import Mathlib

/-!
Verification of the OGDF GraphML parser (`src/ogdf/fileformats/GraphMLParser.cpp`).

The development shallowly embeds the parser: the generic XML tree, the graph /
cluster-tree / attribute-storage collaborators and the token-stream value
conversion are modelled as plain Lean data, and every function of
`GraphMLParser.cpp` is translated into a Lean function over them.  C++ `double`
valued attribute fields are modelled as `Int`: no verified property depends on
fractional values, only on assignment and equality of numeric fields.
`OGDF_ERROR` logging is not observable through the parser's interface and is not
modelled; `OGDF_WARNING` diagnostics of the attribute dispatcher are modelled as
an explicit list of (key id, source line) pairs returned by `readData`.
-/

namespace OgdfGraphML

/-! ## The XML tree collaborator

`XmlParser` / `XmlTagObject` / `XmlAttributeObject` are external collaborators
(read-only input tree).  Only the operations used by `GraphMLParser.cpp` are
modelled: attribute lookup by name, first son by tag name, all sons by tag name
(document order), tag text value, and source line. -/

structure XmlAttributeObject where
  name : String
  value : String
deriving Repr, DecidableEq

mutual

inductive XmlTagObject where
  | mk (name : String) (attributes : List XmlAttributeObject)
       (sons : XmlForest) (value : String) (line : Nat)
deriving DecidableEq

/-- The son list of a tag, as its own inductive so that recursion over the
tree is structural (a tag's sons are accessed as a `List` via `toList`). -/
inductive XmlForest where
  | nil
  | cons (t : XmlTagObject) (f : XmlForest)
deriving DecidableEq

end

def XmlForest.toList : XmlForest → List XmlTagObject
  | .nil => []
  | .cons t f => t :: f.toList

def XmlForest.ofList : List XmlTagObject → XmlForest
  | [] => .nil
  | t :: ts => .cons t (XmlForest.ofList ts)

mutual

/-- An upper bound on the grouping depth of a document subtree, used as the
recursion fuel of the cluster tree walker (every nesting level contributes at
least one). -/
def XmlTagObject.fuelOf : XmlTagObject → Nat
  | .mk _ _ sons _ _ => 1 + sons.fuelOf

def XmlForest.fuelOf : XmlForest → Nat
  | .nil => 0
  | .cons t f => t.fuelOf + f.fuelOf

end

def XmlTagObject.getName : XmlTagObject → String
  | .mk n _ _ _ _ => n

def XmlTagObject.attributes : XmlTagObject → List XmlAttributeObject
  | .mk _ a _ _ _ => a

def XmlTagObject.sons : XmlTagObject → List XmlTagObject
  | .mk _ _ s _ _ => s.toList

def XmlTagObject.getValue : XmlTagObject → String
  | .mk _ _ _ v _ => v

def XmlTagObject.getLine : XmlTagObject → Nat
  | .mk _ _ _ _ l => l

/-- `t.findXmlAttributeObjectByName(n, out)`: first attribute named `n`, if any. -/
def findXmlAttributeObjectByName (t : XmlTagObject) (n : String) :
    Option XmlAttributeObject :=
  t.attributes.find? (fun a => a.name == n)

/-- Single-result `t.findSonXmlTagObjectByName(n, out)`: first son tag named `n`. -/
def findSonXmlTagObjectByName (t : XmlTagObject) (n : String) :
    Option XmlTagObject :=
  t.sons.find? (fun s => s.getName == n)

/-- List-result `t.findSonXmlTagObjectByName(n, list)`: all sons named `n`,
in document order. -/
def findSonXmlTagObjectsByName (t : XmlTagObject) (n : String) :
    List XmlTagObject :=
  t.sons.filter (fun s => s.getName == n)

/-! ## `std::stringstream` value extraction

`readData` converts a data element's text through `std::stringstream`.  The
model tokenizes on whitespace; numeric extraction takes the longest digit
prefix of the next token (C++ reads a leading numeric token character by
character), stores 0 and enters the fail state when no digits can be read
(the C++11 zero-on-failure behaviour), and every extraction from a failed
stream yields its default without consuming input.  String extraction takes
one whitespace-delimited token. -/

structure SStream where
  tokens : List String
  failed : Bool
deriving Repr, DecidableEq

def tokenizeAux : List Char → List Char → List String
  | [], acc => if acc.isEmpty then [] else [String.mk acc.reverse]
  | c :: cs, acc =>
    if c.isWhitespace then
      if acc.isEmpty then tokenizeAux cs []
      else String.mk acc.reverse :: tokenizeAux cs []
    else tokenizeAux cs (c :: acc)

def mkSStream (s : String) : SStream :=
  { tokens := tokenizeAux s.data [], failed := false }

def takeDigits : List Char → List Char × List Char
  | [] => ([], [])
  | c :: cs =>
    if c.isDigit then
      let (d, r) := takeDigits cs
      (c :: d, r)
    else ([], c :: cs)

def digitsToNat (ds : List Char) : Nat :=
  ds.foldl (fun acc c => 10 * acc + (c.toNat - 48)) 0

/-- Numeric extraction (`value >> size`, `value >> r`, ...). -/
def extractInt (st : SStream) : Int × SStream :=
  if st.failed then (0, st)
  else
    match st.tokens with
    | [] => (0, { st with failed := true })
    | t :: ts =>
      let (neg, body) :=
        match t.data with
        | '-' :: rest => (true, rest)
        | cs => (false, cs)
      let (ds, rest) := takeDigits body
      if ds.isEmpty then (0, { st with failed := true })
      else
        let n : Int := (digitsToNat ds : Nat)
        let v : Int := if neg then -n else n
        if rest.isEmpty then (v, { st with tokens := ts })
        else (v, { st with tokens := String.mk rest :: ts })

/-- String extraction (`value >> str`): one whitespace-delimited token. -/
def extractStr (st : SStream) : String × SStream :=
  if st.failed then ("", st)
  else
    match st.tokens with
    | [] => ("", { st with failed := true })
    | t :: ts => (t, { st with tokens := ts })

/-! ## The `graphml` attribute vocabulary

`graphml::Attribute` and the conversion functions `toAttribute`, `toShape`,
`toNodeType`, `toEdgeType`, `toArrow` live in `GraphML.h` / `GraphML.cpp`,
which are not part of the provided sources.  They are modelled from the spec. -/

namespace graphml

/-- The closed set of resolved attribute kinds (spec §3 *ResolvedAttribute*). -/
inductive Attr where
  | a_nodeLabel | a_x | a_y | a_width | a_height | a_size | a_shape | a_z
  | a_r | a_g | a_b | a_nodeFill | a_nodeStroke | a_nodeType
  | a_template | a_nodeWeight
  | a_edgeLabel | a_edgeWeight | a_edgeType | a_edgeArrow | a_edgeStroke
  | a_clusterStroke
  | a_unknown
deriving Repr, DecidableEq

/-- Modelled from the spec: `graphml::toAttribute` (GraphML.cpp, not under the
provided sources) maps a semantic attribute name to exactly one kind of the
closed vocabulary, and anything outside the fixed vocabulary to the `a_unknown`
sentinel (spec §4.2: total, no failure mode). -/
def toAttribute (s : String) : Attr :=
  if s == "label" then .a_nodeLabel
  else if s == "x" then .a_x
  else if s == "y" then .a_y
  else if s == "width" then .a_width
  else if s == "height" then .a_height
  else if s == "size" then .a_size
  else if s == "shape" then .a_shape
  else if s == "z" then .a_z
  else if s == "r" then .a_r
  else if s == "g" then .a_g
  else if s == "b" then .a_b
  else if s == "color" then .a_nodeFill
  else if s == "stroke" then .a_nodeStroke
  else if s == "type" then .a_nodeType
  else if s == "template" then .a_template
  else if s == "weight" then .a_nodeWeight
  else if s == "edgeLabel" then .a_edgeLabel
  else if s == "edgeWeight" then .a_edgeWeight
  else if s == "edgeType" then .a_edgeType
  else if s == "edgeArrow" then .a_edgeArrow
  else if s == "edgeStroke" then .a_edgeStroke
  else if s == "clusterStroke" then .a_clusterStroke
  else .a_unknown

/-- Node shapes.  Modelled from the spec: a small fixed vocabulary with an
"unrecognized → default variant" fallback (spec §4.3). -/
inductive Shape where
  | rect | ellipse | roundedRect
deriving Repr, DecidableEq

/-- Modelled from the spec: `graphml::toShape` (GraphML.cpp). -/
def toShape (s : String) : Shape :=
  if s == "ellipse" then .ellipse
  else if s == "rounded-rect" then .roundedRect
  else .rect

/-- Node types.  Modelled from the spec (small fixed vocabulary). -/
inductive NodeType where
  | vertex | dummy
deriving Repr, DecidableEq

/-- Modelled from the spec: `graphml::toNodeType` (GraphML.cpp). -/
def toNodeType (s : String) : NodeType :=
  if s == "dummy" then .dummy else .vertex

/-- Edge types.  Modelled from the spec (small fixed vocabulary). -/
inductive EdgeType where
  | association | generalization
deriving Repr, DecidableEq

/-- Modelled from the spec: `graphml::toEdgeType` (GraphML.cpp). -/
def toEdgeType (s : String) : EdgeType :=
  if s == "generalization" then .generalization else .association

/-- Arrow styles.  Modelled from the spec (small fixed vocabulary). -/
inductive Arrow where
  | noArrow | first | last | both
deriving Repr, DecidableEq

/-- Modelled from the spec: `graphml::toArrow` (GraphML.cpp). -/
def toArrow (s : String) : Arrow :=
  if s == "first" then .first
  else if s == "last" then .last
  else if s == "both" then .both
  else .noArrow

end graphml

/-! ## The attribute-storage collaborators

`GraphAttributes` / `ClusterGraphAttributes` are external collaborators mutated
through their typed accessors, gated by the capability mask `GA.attributes()`. -/

/-- An RGB colour.  `Color::red(uint8_t)` etc. are channel setters; assignment
from a string parses a colour name. -/
structure Color where
  red : Nat
  green : Nat
  blue : Nat
deriving Repr, DecidableEq

/-- Modelled from the spec: `Color` assignment from a colour-name string
(external `Color` collaborator); unrecognized names map to a default. -/
def Color.fromString (s : String) : Color :=
  if s == "white" then ⟨255, 255, 255⟩
  else if s == "red" then ⟨255, 0, 0⟩
  else if s == "green" then ⟨0, 255, 0⟩
  else if s == "blue" then ⟨0, 0, 255⟩
  else ⟨0, 0, 0⟩

/-- `static_cast<uint8_t>` of a C++ `int`. -/
def castUInt8 (i : Int) : Nat := (i % 256).toNat

/- Capability-mask bits of `GraphAttributes` (external collaborator header).
Distinct powers of two; only their distinctness matters here. -/
namespace GraphAttributes

def nodeGraphics : Nat := 1
def edgeGraphics : Nat := 2
def edgeIntWeight : Nat := 4
def edgeDoubleWeight : Nat := 8
def edgeLabel : Nat := 16
def nodeLabel : Nat := 32
def edgeType : Nat := 64
def nodeType : Nat := 128
def nodeId : Nat := 256
def edgeArrow : Nat := 512
def edgeStyle : Nat := 1024
def nodeStyle : Nat := 2048
def nodeTemplate : Nat := 4096
def edgeSubGraph : Nat := 8192
def nodeWeight : Nat := 16384
def threeD : Nat := 32768

end GraphAttributes

/-- Typed per-node attribute fields touched by the parser. -/
structure NodeAttrs where
  label : String := ""
  x : Int := 0
  y : Int := 0
  width : Int := 0
  height : Int := 0
  shape : graphml.Shape := .rect
  z : Int := 0
  fillColor : Color := ⟨0, 0, 0⟩
  strokeColor : Color := ⟨0, 0, 0⟩
  nodeType : graphml.NodeType := .vertex
  templateNode : String := ""
  weight : Int := 0
deriving Repr, DecidableEq

/-- Typed per-edge attribute fields touched by the parser. -/
structure EdgeAttrs where
  label : String := ""
  intWeight : Int := 0
  doubleWeight : Int := 0
  edgeType : graphml.EdgeType := .association
  arrowType : graphml.Arrow := .noArrow
  strokeColor : Color := ⟨0, 0, 0⟩
deriving Repr, DecidableEq

/-- Typed per-cluster attribute fields touched by the parser. -/
structure ClusterAttrs where
  label : String := ""
  x : Int := 0
  y : Int := 0
  width : Int := 0
  height : Int := 0
  fillColor : Color := ⟨0, 0, 0⟩
  strokeColor : Color := ⟨0, 0, 0⟩
deriving Repr, DecidableEq

/-- `GraphAttributes`: the capability mask returned by `attributes()` and the
typed per-node / per-edge stores, indexed by node / edge handle. -/
structure GraphAttributes where
  attrs : Nat
  nodeAttr : Nat → NodeAttrs
  edgeAttr : Nat → EdgeAttrs

def GraphAttributes.setNode (GA : GraphAttributes) (v : Nat) (a : NodeAttrs) :
    GraphAttributes :=
  { GA with nodeAttr := fun i => if i = v then a else GA.nodeAttr i }

def GraphAttributes.setEdge (GA : GraphAttributes) (e : Nat) (a : EdgeAttrs) :
    GraphAttributes :=
  { GA with edgeAttr := fun i => if i = e then a else GA.edgeAttr i }

/-- `ClusterGraphAttributes` derives from `GraphAttributes` (the C++ class
inherits it; `readClusters` passes a `ClusterGraphAttributes*` to `readEdges`
through the base-class pointer) and adds the per-cluster store. -/
structure ClusterGraphAttributes extends GraphAttributes where
  clusterAttr : Nat → ClusterAttrs

def ClusterGraphAttributes.setCluster (CA : ClusterGraphAttributes) (c : Nat)
    (a : ClusterAttrs) : ClusterGraphAttributes :=
  { CA with clusterAttr := fun i => if i = c then a else CA.clusterAttr i }

/-- Replace the capability mask of a `ClusterGraphAttributes`. -/
def ClusterGraphAttributes.withMask (CA : ClusterGraphAttributes) (m : Nat) :
    ClusterGraphAttributes :=
  { CA with toGraphAttributes := { CA.toGraphAttributes with attrs := m } }

/-! ## The graph and cluster-tree collaborators -/

/-- The `Graph` collaborator.  Node handles are `0, 1, 2, ...` in creation
order; a C++ null `node` pointer (the default value a registry lookup yields
for an unregistered id) is `Option.none`.  Edges record their endpoint
handles in creation order. -/
structure Graph where
  numNodes : Nat
  edges : List (Option Nat × Option Nat)
deriving Repr, DecidableEq

def Graph.newNode (G : Graph) : Graph × Nat :=
  ({ G with numNodes := G.numNodes + 1 }, G.numNodes)

def Graph.newEdge (G : Graph) (s t : Option Nat) : Graph × Nat :=
  ({ G with edges := G.edges ++ [(s, t)] }, G.edges.length)

def Graph.clear (_ : Graph) : Graph :=
  { numNodes := 0, edges := [] }

/-- The `ClusterGraph` collaborator.  Cluster handles are created in order;
`parentOf` records `(child, parent)` at creation time, `nodeClusterOf` the
latest cluster reassignment of each node (first matching entry wins). -/
structure ClusterGraph where
  numClusters : Nat
  rootCluster : Nat
  parentOf : List (Nat × Nat)
  nodeClusterOf : List (Nat × Nat)
deriving Repr, DecidableEq

def ClusterGraph.newCluster (C : ClusterGraph) (parent : Nat) :
    ClusterGraph × Nat :=
  ({ C with
      numClusters := C.numClusters + 1
      parentOf := (C.numClusters, parent) :: C.parentOf },
   C.numClusters)

def ClusterGraph.reassignNode (C : ClusterGraph) (v : Nat) (c : Nat) :
    ClusterGraph :=
  { C with nodeClusterOf := (v, c) :: C.nodeClusterOf }

/-! ## Registries

`m_attrName` (key id → semantic name, built at construction) and `m_nodeId`
(node id → node handle, rebuilt per read) are keyed containers owned by the
parser.  Insertion conses at the front, so a later insertion for the same key
overrides an earlier one (map overwrite, last wins); a lookup of an absent key
yields the default — the empty string for `m_attrName`, the null node handle
for `m_nodeId`.  (C++ `operator[]` on a lookup miss also inserts the default
into the map, which is observationally equivalent for all later lookups.) -/

def lookupAttrName (m : List (String × String)) (k : String) : String :=
  match m.find? (fun p => p.1 == k) with
  | some p => p.2
  | none => ""

def lookupNodeId (m : List (String × Nat)) (k : String) : Option Nat :=
  (m.find? (fun p => p.1 == k)).map (fun p => p.2)

/-! ## The attribute dispatcher: `GraphMLParser::readData`

Each dispatcher returns the C++ `bool` result, the updated attribute storage,
and the advisory diagnostics emitted by its default arm (key id, source line).
`m_attrName` is the key registry built at construction. -/

/-- `readData(GraphAttributes&, const node&, const XmlTagObject&)`. -/
def readData (m_attrName : List (String × String)) (GA : GraphAttributes)
    (v : Nat) (nodeData : XmlTagObject) :
    Bool × GraphAttributes × List (String × Nat) :=
  match findXmlAttributeObjectByName nodeData "key" with
  | none => (false, GA, [])
  | some keyId =>
    let attrs := GA.attrs
    let value := mkSStream nodeData.getValue
    match graphml.toAttribute (lookupAttrName m_attrName keyId.value) with
    | .a_nodeLabel =>
      if attrs &&& GraphAttributes.nodeLabel ≠ 0 then
        (true, GA.setNode v { GA.nodeAttr v with label := (extractStr value).1 }, [])
      else (true, GA, [])
    | .a_x =>
      if attrs &&& GraphAttributes.nodeGraphics ≠ 0 then
        (true, GA.setNode v { GA.nodeAttr v with x := (extractInt value).1 }, [])
      else (true, GA, [])
    | .a_y =>
      if attrs &&& GraphAttributes.nodeGraphics ≠ 0 then
        (true, GA.setNode v { GA.nodeAttr v with y := (extractInt value).1 }, [])
      else (true, GA, [])
    | .a_width =>
      if attrs &&& GraphAttributes.nodeGraphics ≠ 0 then
        (true, GA.setNode v { GA.nodeAttr v with width := (extractInt value).1 }, [])
      else (true, GA, [])
    | .a_height =>
      if attrs &&& GraphAttributes.nodeGraphics ≠ 0 then
        (true, GA.setNode v { GA.nodeAttr v with height := (extractInt value).1 }, [])
      else (true, GA, [])
    | .a_size =>
      if attrs &&& GraphAttributes.nodeGraphics ≠ 0 then
        let size := (extractInt value).1
        -- "We want to set a new size only if width and height was not set."
        if (GA.nodeAttr v).height = (GA.nodeAttr v).width then
          (true, GA.setNode v { GA.nodeAttr v with height := size, width := size }, [])
        else (true, GA, [])
      else (true, GA, [])
    | .a_shape =>
      if attrs &&& GraphAttributes.nodeGraphics ≠ 0 then
        (true, GA.setNode v
          { GA.nodeAttr v with shape := graphml.toShape (extractStr value).1 }, [])
      else (true, GA, [])
    | .a_z =>
      if attrs &&& GraphAttributes.threeD ≠ 0 then
        (true, GA.setNode v { GA.nodeAttr v with z := (extractInt value).1 }, [])
      else (true, GA, [])
    | .a_r =>
      if attrs &&& GraphAttributes.nodeStyle ≠ 0 then
        let r := (extractInt value).1
        (true, GA.setNode v
          { GA.nodeAttr v with
            fillColor := { (GA.nodeAttr v).fillColor with red := castUInt8 r } }, [])
      else (true, GA, [])
    | .a_g =>
      if attrs &&& GraphAttributes.nodeStyle ≠ 0 then
        let g := (extractInt value).1
        (true, GA.setNode v
          { GA.nodeAttr v with
            fillColor := { (GA.nodeAttr v).fillColor with green := castUInt8 g } }, [])
      else (true, GA, [])
    | .a_b =>
      if attrs &&& GraphAttributes.nodeStyle ≠ 0 then
        let b := (extractInt value).1
        (true, GA.setNode v
          { GA.nodeAttr v with
            fillColor := { (GA.nodeAttr v).fillColor with blue := castUInt8 b } }, [])
      else (true, GA, [])
    | .a_nodeFill =>
      if attrs &&& GraphAttributes.nodeStyle ≠ 0 then
        (true, GA.setNode v
          { GA.nodeAttr v with fillColor := Color.fromString (extractStr value).1 }, [])
      else (true, GA, [])
    | .a_nodeStroke =>
      if attrs &&& GraphAttributes.nodeStyle ≠ 0 then
        (true, GA.setNode v
          { GA.nodeAttr v with strokeColor := Color.fromString (extractStr value).1 }, [])
      else (true, GA, [])
    | .a_nodeType =>
      if attrs &&& GraphAttributes.nodeType ≠ 0 then
        (true, GA.setNode v
          { GA.nodeAttr v with nodeType := graphml.toNodeType (extractStr value).1 }, [])
      else (true, GA, [])
    | .a_template =>
      if attrs &&& GraphAttributes.nodeTemplate ≠ 0 then
        (true, GA.setNode v
          { GA.nodeAttr v with templateNode := (extractStr value).1 }, [])
      else (true, GA, [])
    | .a_nodeWeight =>
      if attrs &&& GraphAttributes.nodeWeight ≠ 0 then
        (true, GA.setNode v { GA.nodeAttr v with weight := (extractInt value).1 }, [])
      else (true, GA, [])
    | _ => (true, GA, [(keyId.value, nodeData.getLine)])

/-- `readData(GraphAttributes&, const edge&, const XmlTagObject&)`. -/
def readDataEdge (m_attrName : List (String × String)) (GA : GraphAttributes)
    (e : Nat) (edgeData : XmlTagObject) :
    Bool × GraphAttributes × List (String × Nat) :=
  match findXmlAttributeObjectByName edgeData "key" with
  | none => (false, GA, [])
  | some keyId =>
    let attrs := GA.attrs
    let value := mkSStream edgeData.getValue
    match graphml.toAttribute (lookupAttrName m_attrName keyId.value) with
    | .a_edgeLabel =>
      if attrs &&& GraphAttributes.edgeLabel ≠ 0 then
        (true, GA.setEdge e { GA.edgeAttr e with label := (extractStr value).1 }, [])
      else (true, GA, [])
    | .a_edgeWeight =>
      if attrs &&& GraphAttributes.edgeIntWeight ≠ 0 then
        (true, GA.setEdge e { GA.edgeAttr e with intWeight := (extractInt value).1 }, [])
      else if attrs &&& GraphAttributes.edgeDoubleWeight ≠ 0 then
        (true, GA.setEdge e { GA.edgeAttr e with doubleWeight := (extractInt value).1 }, [])
      else (true, GA, [])
    | .a_edgeType =>
      if attrs &&& GraphAttributes.edgeType ≠ 0 then
        (true, GA.setEdge e
          { GA.edgeAttr e with edgeType := graphml.toEdgeType (extractStr value).1 }, [])
      else (true, GA, [])
    | .a_edgeArrow =>
      if attrs &&& GraphAttributes.edgeArrow ≠ 0 then
        (true, GA.setEdge e
          { GA.edgeAttr e with arrowType := graphml.toArrow (extractStr value).1 }, [])
      else (true, GA, [])
    | .a_edgeStroke =>
      if attrs &&& GraphAttributes.edgeStyle ≠ 0 then
        (true, GA.setEdge e
          { GA.edgeAttr e with strokeColor := Color.fromString (extractStr value).1 }, [])
      else (true, GA, [])
    | _ => (true, GA, [(keyId.value, edgeData.getLine)])

/-- `readData(ClusterGraphAttributes&, const cluster&, const XmlTagObject&)`.
No capability-mask check on any arm.  The `a_size` case of the source has no
`break`, so after the conditional width/height update control falls through
into the `a_r` case: a second numeric extraction from the same stream is
stored into the red channel of the cluster's fill colour. -/
def readDataCluster (m_attrName : List (String × String))
    (CA : ClusterGraphAttributes) (c : Nat) (clusterData : XmlTagObject) :
    Bool × ClusterGraphAttributes × List (String × Nat) :=
  match findXmlAttributeObjectByName clusterData "key" with
  | none => (false, CA, [])
  | some keyId =>
    let value := mkSStream clusterData.getValue
    match graphml.toAttribute (lookupAttrName m_attrName keyId.value) with
    | .a_nodeLabel =>
      (true, CA.setCluster c { CA.clusterAttr c with label := (extractStr value).1 }, [])
    | .a_x =>
      (true, CA.setCluster c { CA.clusterAttr c with x := (extractInt value).1 }, [])
    | .a_y =>
      (true, CA.setCluster c { CA.clusterAttr c with y := (extractInt value).1 }, [])
    | .a_width =>
      (true, CA.setCluster c { CA.clusterAttr c with width := (extractInt value).1 }, [])
    | .a_height =>
      (true, CA.setCluster c { CA.clusterAttr c with height := (extractInt value).1 }, [])
    | .a_size =>
      let (size, value1) := extractInt value
      -- "We want to set a new size only if width and height was not set."
      let CA1 :=
        if (CA.clusterAttr c).width = (CA.clusterAttr c).height then
          CA.setCluster c { CA.clusterAttr c with width := size, height := size }
        else CA
      -- missing break: fall through into the a_r case
      let r := (extractInt value1).1
      (true, CA1.setCluster c
        { CA1.clusterAttr c with
          fillColor := { (CA1.clusterAttr c).fillColor with red := castUInt8 r } }, [])
    | .a_r =>
      let r := (extractInt value).1
      (true, CA.setCluster c
        { CA.clusterAttr c with
          fillColor := { (CA.clusterAttr c).fillColor with red := castUInt8 r } }, [])
    | .a_g =>
      let g := (extractInt value).1
      (true, CA.setCluster c
        { CA.clusterAttr c with
          fillColor := { (CA.clusterAttr c).fillColor with green := castUInt8 g } }, [])
    | .a_b =>
      let b := (extractInt value).1
      (true, CA.setCluster c
        { CA.clusterAttr c with
          fillColor := { (CA.clusterAttr c).fillColor with blue := castUInt8 b } }, [])
    | .a_clusterStroke =>
      (true, CA.setCluster c
        { CA.clusterAttr c with
          strokeColor := Color.fromString clusterData.getValue }, [])
    | _ => (true, CA, [(keyId.value, clusterData.getLine)])

/-! ## `readAttributes`

Modelled from the spec: `readAttributes` is declared in `GraphMLParser.h`,
which is not among the provided sources — only its call sites are.  Per spec
§4.3/§4.4 it invokes the attribute dispatcher (`readData`) over the element's
`data` children in document order and propagates the first abort to the
caller; advisory diagnostics accumulate. -/

def readAttributesLoop (m_attrName : List (String × String)) (v : Nat) :
    List XmlTagObject → GraphAttributes →
    Bool × GraphAttributes × List (String × Nat)
  | [], GA => (true, GA, [])
  | d :: ds, GA =>
    match readData m_attrName GA v d with
    | (true, GA1, w) =>
      let r := readAttributesLoop m_attrName v ds GA1
      (r.1, r.2.1, w ++ r.2.2)
    | (false, GA1, w) => (false, GA1, w)

/-- Modelled from the spec: `readAttributes(GraphAttributes&, node, tag)`. -/
def readAttributes (m_attrName : List (String × String)) (GA : GraphAttributes)
    (v : Nat) (nodeTag : XmlTagObject) :
    Bool × GraphAttributes × List (String × Nat) :=
  readAttributesLoop m_attrName v (findSonXmlTagObjectsByName nodeTag "data") GA

def readAttributesEdgeLoop (m_attrName : List (String × String)) (e : Nat) :
    List XmlTagObject → GraphAttributes →
    Bool × GraphAttributes × List (String × Nat)
  | [], GA => (true, GA, [])
  | d :: ds, GA =>
    match readDataEdge m_attrName GA e d with
    | (true, GA1, w) =>
      let r := readAttributesEdgeLoop m_attrName e ds GA1
      (r.1, r.2.1, w ++ r.2.2)
    | (false, GA1, w) => (false, GA1, w)

/-- Modelled from the spec: `readAttributes(GraphAttributes&, edge, tag)`. -/
def readAttributesEdge (m_attrName : List (String × String))
    (GA : GraphAttributes) (e : Nat) (edgeTag : XmlTagObject) :
    Bool × GraphAttributes × List (String × Nat) :=
  readAttributesEdgeLoop m_attrName e (findSonXmlTagObjectsByName edgeTag "data") GA

def readAttributesClusterLoop (m_attrName : List (String × String)) (c : Nat) :
    List XmlTagObject → ClusterGraphAttributes →
    Bool × ClusterGraphAttributes × List (String × Nat)
  | [], CA => (true, CA, [])
  | d :: ds, CA =>
    match readDataCluster m_attrName CA c d with
    | (true, CA1, w) =>
      let r := readAttributesClusterLoop m_attrName c ds CA1
      (r.1, r.2.1, w ++ r.2.2)
    | (false, CA1, w) => (false, CA1, w)

/-- Modelled from the spec: `readAttributes(ClusterGraphAttributes&, cluster, tag)`. -/
def readAttributesCluster (m_attrName : List (String × String))
    (CA : ClusterGraphAttributes) (c : Nat) (clusterTag : XmlTagObject) :
    Bool × ClusterGraphAttributes × List (String × Nat) :=
  readAttributesClusterLoop m_attrName c
    (findSonXmlTagObjectsByName clusterTag "data") CA

/-! ## The flat graph builder: `readNodes` / `readEdges`

The per-read mutable state (`G`, the optional attribute storage pointed to by
`GA`, and the node registry `m_nodeId`) is threaded explicitly.  A `false`
result leaves whatever partial state was built, exactly as the C++ early
returns do. -/

structure FlatState where
  G : Graph
  GA : Option GraphAttributes
  m_nodeId : List (String × Nat)

def readNodesLoop (m_attrName : List (String × String)) :
    List XmlTagObject → FlatState → Bool × FlatState
  | [], st => (true, st)
  | nodeTag :: rest, st =>
    match findXmlAttributeObjectByName nodeTag "id" with
    | none => (false, st)
    | some idAttr =>
      let (G1, v) := st.G.newNode
      let nid1 := (idAttr.value, v) :: st.m_nodeId
      match st.GA with
      | none =>
        readNodesLoop m_attrName rest { G := G1, GA := none, m_nodeId := nid1 }
      | some ga =>
        match readAttributes m_attrName ga v nodeTag with
        | (true, ga1, _) =>
          readNodesLoop m_attrName rest { G := G1, GA := some ga1, m_nodeId := nid1 }
        | (false, ga1, _) =>
          (false, { G := G1, GA := some ga1, m_nodeId := nid1 })

/-- `GraphMLParser::readNodes(Graph&, GraphAttributes*, const XmlTagObject&)`. -/
def readNodes (m_attrName : List (String × String)) (st : FlatState)
    (rootTag : XmlTagObject) : Bool × FlatState :=
  readNodesLoop m_attrName (findSonXmlTagObjectsByName rootTag "node") st

def readEdgesLoop (m_attrName : List (String × String)) :
    List XmlTagObject → FlatState → Bool × FlatState
  | [], st => (true, st)
  | edgeTag :: rest, st =>
    match findXmlAttributeObjectByName edgeTag "source" with
    | none => (false, st)
    | some sourceId =>
      match findXmlAttributeObjectByName edgeTag "target" with
      | none => (false, st)
      | some targetId =>
        let source := lookupNodeId st.m_nodeId sourceId.value
        let target := lookupNodeId st.m_nodeId targetId.value
        let (G1, e) := st.G.newEdge source target
        match st.GA with
        | none =>
          readEdgesLoop m_attrName rest { st with G := G1 }
        | some ga =>
          match readAttributesEdge m_attrName ga e edgeTag with
          | (true, ga1, _) =>
            readEdgesLoop m_attrName rest { st with G := G1, GA := some ga1 }
          | (false, ga1, _) =>
            (false, { st with G := G1, GA := some ga1 })

/-- `GraphMLParser::readEdges(Graph&, GraphAttributes*, const XmlTagObject&)`. -/
def readEdges (m_attrName : List (String × String)) (st : FlatState)
    (rootTag : XmlTagObject) : Bool × FlatState :=
  readEdgesLoop m_attrName (findSonXmlTagObjectsByName rootTag "edge") st

/-! ## The cluster tree walker: `readClusters`

The walker recurses into the first nested `graph` son of a cluster-denoting
node element.  Recursion depth equals the document's grouping depth; since
that descent is not structural for Lean, the recursion carries a fuel counter
and fails when it is exhausted — the read entry points pass `sizeOf` of the
graph tag, which exceeds any possible nesting depth, so the fuel branch is
never taken on the source's executions.  The son loop is a fold whose step is
the body of the C++ `for` loop; a failed step makes all remaining steps
no-ops, mirroring the early `return false`. -/

structure ClusterState where
  G : Graph
  C : ClusterGraph
  CA : Option ClusterGraphAttributes
  m_nodeId : List (String × Nat)

/-- One iteration of the node-element loop of `readClusters`, with the
recursive descent abstracted as `recurse`. -/
def readClusterNodeStep (m_attrName : List (String × String))
    (recurse : ClusterState → Nat → XmlTagObject → Bool × ClusterState)
    (rootCluster : Nat) (acc : Bool × ClusterState) (nodeTag : XmlTagObject) :
    Bool × ClusterState :=
  match acc with
  | (false, st) => (false, st)
  | (true, st) =>
    let idAttr := findXmlAttributeObjectByName nodeTag "id"
    match findSonXmlTagObjectByName nodeTag "graph" with
    | none =>
      -- Got normal node then, add it to the graph - id is required.
      match idAttr with
      | none => (false, st)
      | some idAttr =>
        let (G1, v) := st.G.newNode
        let nid1 := (idAttr.value, v) :: st.m_nodeId
        let C1 := st.C.reassignNode v rootCluster
        match st.CA with
        | none =>
          (true, { G := G1, C := C1, CA := none, m_nodeId := nid1 })
        | some ca =>
          match readAttributes m_attrName ca.toGraphAttributes v nodeTag with
          | (true, ga1, _) =>
            (true, { G := G1, C := C1,
                     CA := some { ca with toGraphAttributes := ga1 },
                     m_nodeId := nid1 })
          | (false, ga1, _) =>
            (false, { G := G1, C := C1,
                      CA := some { ca with toGraphAttributes := ga1 },
                      m_nodeId := nid1 })
    | some clusterTag =>
      -- Got a cluster node - read it recursively.
      let (C1, c) := st.C.newCluster rootCluster
      match recurse { st with C := C1 } c clusterTag with
      | (false, st1) => (false, st1)
      | (true, st1) =>
        match st1.CA with
        | none => (true, st1)
        | some ca =>
          match readAttributesCluster m_attrName ca c nodeTag with
          | (true, ca1, _) => (true, { st1 with CA := some ca1 })
          | (false, ca1, _) => (false, { st1 with CA := some ca1 })

/-- `GraphMLParser::readClusters(Graph&, ClusterGraph&, ClusterGraphAttributes*,
const cluster&, const XmlTagObject&)`.  The trailing `readEdges` call passes
the `ClusterGraphAttributes` through its `GraphAttributes` base, as the C++
pointer conversion does. -/
def readClusters (m_attrName : List (String × String)) :
    Nat → ClusterState → Nat → XmlTagObject → Bool × ClusterState
  | 0, st, _, _ => (false, st)
  | fuel + 1, st, rootCluster, rootTag =>
    match (findSonXmlTagObjectsByName rootTag "node").foldl
        (readClusterNodeStep m_attrName (readClusters m_attrName fuel) rootCluster)
        (true, st) with
    | (false, st1) => (false, st1)
    | (true, st1) =>
      let fst : FlatState :=
        { G := st1.G, GA := st1.CA.map (fun ca => ca.toGraphAttributes),
          m_nodeId := st1.m_nodeId }
      match readEdges m_attrName fst rootTag with
      | (ok, fst1) =>
        (ok, { G := fst1.G, C := st1.C,
               CA := match st1.CA, fst1.GA with
                 | some ca, some ga => some { ca with toGraphAttributes := ga }
                 | _, _ => st1.CA,
               m_nodeId := fst1.m_nodeId })

/-! ## The reader facade: `GraphMLParser` and the four `read` entry points -/

structure GraphMLParser where
  m_error : Bool
  m_graphTag : Option XmlTagObject
  m_attrName : List (String × String)

/-- The key-declaration loop of the constructor: requires an `id` and an
`attr.name` attribute on each `key` tag; a missing one stops the loop with an
error, leaving the partially built registry. -/
def buildAttrName : List XmlTagObject → List (String × String) →
    Bool × List (String × String)
  | [], m => (true, m)
  | keyTag :: rest, m =>
    match findXmlAttributeObjectByName keyTag "id" with
    | none => (false, m)
    | some idAttr =>
      match findXmlAttributeObjectByName keyTag "attr.name" with
      | none => (false, m)
      | some nameAttr => buildAttrName rest ((idAttr.value, nameAttr.value) :: m)

/-- `GraphMLParser::GraphMLParser(istream&)`.  The XML tokenizer `m_xml` is an
external collaborator; its already-built parse tree is the input, with `none`
modelling `createParseTree()` failure.  Checks the `graphml` root, locates the
`graph` tag and builds the key registry; any violation enters the permanent
`m_error` state. -/
def GraphMLParser.ofParseTree (tree : Option XmlTagObject) : GraphMLParser :=
  match tree with
  | none => { m_error := true, m_graphTag := none, m_attrName := [] }
  | some rootTag =>
    if rootTag.getName ≠ "graphml" then
      { m_error := true, m_graphTag := none, m_attrName := [] }
    else
      match findSonXmlTagObjectByName rootTag "graph" with
      | none => { m_error := true, m_graphTag := none, m_attrName := [] }
      | some graphTag =>
        match buildAttrName (findSonXmlTagObjectsByName rootTag "key") [] with
        | (ok, m) =>
          { m_error := !ok, m_graphTag := some graphTag, m_attrName := m }

/-- `GraphMLParser::read(Graph&)`: flat read, no attribute storage. -/
def GraphMLParser.read (p : GraphMLParser) (G : Graph) : Bool × Graph :=
  if p.m_error then (false, G)
  else
    let G1 := G.clear
    match p.m_graphTag with
    | none => (false, G1)
    | some graphTag =>
      let st : FlatState := { G := G1, GA := none, m_nodeId := [] }
      match readNodes p.m_attrName st graphTag with
      | (false, st1) => (false, st1.G)
      | (true, st1) =>
        let (ok, st2) := readEdges p.m_attrName st1 graphTag
        (ok, st2.G)

/-- `GraphMLParser::read(Graph&, GraphAttributes&)`: flat read with attributes. -/
def GraphMLParser.readGA (p : GraphMLParser) (G : Graph) (GA : GraphAttributes) :
    Bool × Graph × GraphAttributes :=
  if p.m_error then (false, G, GA)
  else
    let G1 := G.clear
    match p.m_graphTag with
    | none => (false, G1, GA)
    | some graphTag =>
      let st : FlatState := { G := G1, GA := some GA, m_nodeId := [] }
      match readNodes p.m_attrName st graphTag with
      | (false, st1) => (false, st1.G, st1.GA.getD GA)
      | (true, st1) =>
        let (ok, st2) := readEdges p.m_attrName st1 graphTag
        (ok, st2.G, st2.GA.getD GA)

/-- `GraphMLParser::read(Graph&, ClusterGraph&)`: clustered read. -/
def GraphMLParser.readC (p : GraphMLParser) (G : Graph) (C : ClusterGraph) :
    Bool × Graph × ClusterGraph :=
  if p.m_error then (false, G, C)
  else
    let G1 := G.clear
    match p.m_graphTag with
    | none => (false, G1, C)
    | some graphTag =>
      let st : ClusterState := { G := G1, C := C, CA := none, m_nodeId := [] }
      let (ok, st1) := readClusters p.m_attrName graphTag.fuelOf st C.rootCluster graphTag
      (ok, st1.G, st1.C)

/-- `GraphMLParser::read(Graph&, ClusterGraph&, ClusterGraphAttributes&)`:
clustered read with attributes. -/
def GraphMLParser.readCA (p : GraphMLParser) (G : Graph) (C : ClusterGraph)
    (CA : ClusterGraphAttributes) :
    Bool × Graph × ClusterGraph × ClusterGraphAttributes :=
  if p.m_error then (false, G, C, CA)
  else
    let G1 := G.clear
    match p.m_graphTag with
    | none => (false, G1, C, CA)
    | some graphTag =>
      let st : ClusterState := { G := G1, C := C, CA := some CA, m_nodeId := [] }
      let (ok, st1) := readClusters p.m_attrName graphTag.fuelOf st C.rootCluster graphTag
      (ok, st1.G, st1.C, st1.CA.getD CA)

/-! ## Derived notions used by the statements -/

/-- The node ids declared by a list of node elements, in document order. -/
def declaredIds (l : List XmlTagObject) : List String :=
  l.filterMap (fun t => (findXmlAttributeObjectByName t "id").map (fun a => a.value))

/-- The value of the named attribute of a tag, empty when absent. -/
def attrValue (t : XmlTagObject) (n : String) : String :=
  ((findXmlAttributeObjectByName t n).map (fun a => a.value)).getD ""

/-- An edge element carries both endpoint attributes and both reference
declared ids. -/
def edgeRefsOk (ids : List String) (t : XmlTagObject) : Bool :=
  match findXmlAttributeObjectByName t "source",
      findXmlAttributeObjectByName t "target" with
  | some s, some tg => ids.contains s.value && ids.contains tg.value
  | _, _ => false

/-- The capability bit a node attribute kind is gated by in `readData`. -/
def nodeCapBit : graphml.Attr → Nat
  | .a_nodeLabel => GraphAttributes.nodeLabel
  | .a_x | .a_y | .a_width | .a_height | .a_size | .a_shape =>
    GraphAttributes.nodeGraphics
  | .a_z => GraphAttributes.threeD
  | .a_r | .a_g | .a_b | .a_nodeFill | .a_nodeStroke => GraphAttributes.nodeStyle
  | .a_nodeType => GraphAttributes.nodeType
  | .a_template => GraphAttributes.nodeTemplate
  | .a_nodeWeight => GraphAttributes.nodeWeight
  | _ => 0

def isNodeAttrKind : graphml.Attr → Bool
  | .a_nodeLabel | .a_x | .a_y | .a_width | .a_height | .a_size | .a_shape
  | .a_z | .a_r | .a_g | .a_b | .a_nodeFill | .a_nodeStroke | .a_nodeType
  | .a_template | .a_nodeWeight => true
  | _ => false

/-- The capability bits an edge attribute kind is gated by in `readData`
(for `a_edgeWeight`, either of the two weight bits enables a write). -/
def edgeCapBit : graphml.Attr → Nat
  | .a_edgeLabel => GraphAttributes.edgeLabel
  | .a_edgeWeight => GraphAttributes.edgeIntWeight ||| GraphAttributes.edgeDoubleWeight
  | .a_edgeType => GraphAttributes.edgeType
  | .a_edgeArrow => GraphAttributes.edgeArrow
  | .a_edgeStroke => GraphAttributes.edgeStyle
  | _ => 0

def isEdgeAttrKind : graphml.Attr →  Bool
  | .a_edgeLabel | .a_edgeWeight | .a_edgeType | .a_edgeArrow
  | .a_edgeStroke => true
  | _ => false

/-- The document contains, at some grouping depth reachable by the cluster
walker, a leaf node element (one with no nested `graph` son) that lacks an
`id` attribute. -/
inductive HasBadLeaf : XmlTagObject → Prop where
  | leaf (tag t : XmlTagObject)
      (hmem : t ∈ findSonXmlTagObjectsByName tag "node")
      (hleaf : findSonXmlTagObjectByName t "graph" = none)
      (hid : findXmlAttributeObjectByName t "id" = none) : HasBadLeaf tag
  | nested (tag t g : XmlTagObject)
      (hmem : t ∈ findSonXmlTagObjectsByName tag "node")
      (hsub : findSonXmlTagObjectByName t "graph" = some g)
      (hbad : HasBadLeaf g) : HasBadLeaf tag

/-- The number of cluster-denoting node elements (those with a nested `graph`
son) reachable by the walker at the given fuel, counted recursively. -/
def countClusterAux (rec : XmlTagObject → Nat) : List XmlTagObject → Nat
  | [] => 0
  | t :: ts =>
    (match findSonXmlTagObjectByName t "graph" with
     | some g => 1 + rec g
     | none => 0) + countClusterAux rec ts

def countClusterNodes : Nat → XmlTagObject → Nat
  | 0, _ => 0
  | fuel + 1, tag =>
    countClusterAux (countClusterNodes fuel) (findSonXmlTagObjectsByName tag "node")

/-- The effect of one cluster-walker call on the cluster tree, relative to the
frame cluster `rc`: exactly `n` new clusters, the root cluster untouched, all
previous parent links kept, and every new cluster attached at creation — it
has a recorded parent strictly below its own handle, which is either the
frame cluster `rc` or another cluster created during the same walk. -/
def clusterTreeOutcome (rc : Nat) (C0 C1 : ClusterGraph) (n : Nat) : Prop :=
  C1.numClusters = C0.numClusters + n ∧
  C1.rootCluster = C0.rootCluster ∧
  (∀ e ∈ C0.parentOf, e ∈ C1.parentOf) ∧
  (∀ k, C0.numClusters ≤ k → k < C1.numClusters →
    ∃ pk, (k, pk) ∈ C1.parentOf ∧ pk < k ∧ (pk = rc ∨ C0.numClusters ≤ pk))

/-! ## Concrete example documents (used by witnesses and counterexamples) -/

/-- Build a tag from a plain son list. -/
def tagOf (n : String) (attrs : List XmlAttributeObject)
    (sons : List XmlTagObject) (v : String) (l : Nat) : XmlTagObject :=
  .mk n attrs (XmlForest.ofList sons) v l

def exNode (i : String) : XmlTagObject := tagOf "node" [⟨"id", i⟩] [] "" 1

def exEdge (s t : String) : XmlTagObject :=
  tagOf "edge" [⟨"source", s⟩, ⟨"target", t⟩] [] "" 2

/-- `graphml{graph{node n0; node n1; edge n0→n1}}`. -/
def exDoc : XmlTagObject :=
  tagOf "graphml" []
    [tagOf "graph" [] [exNode "n0", exNode "n1", exEdge "n0" "n1"] "" 0] "" 0

def exGraphTag : XmlTagObject :=
  tagOf "graph" [] [exNode "n0", exNode "n1", exEdge "n0" "n1"] "" 0

def exParser : GraphMLParser := GraphMLParser.ofParseTree (some exDoc)

/-- A graph tag whose first node element has a nested graph son but no id. -/
def exClusterGraphTag : XmlTagObject :=
  tagOf "graph" []
    [tagOf "node" [] [tagOf "graph" [] [exNode "n0"] "" 4] "" 3, exNode "n1"] "" 0

def exClusterDoc : XmlTagObject := tagOf "graphml" [] [exClusterGraphTag] "" 0

def exClusterParser : GraphMLParser := GraphMLParser.ofParseTree (some exClusterDoc)

/-- A `data` element whose key resolves to `size`, with two numeric tokens. -/
def exDataSize : XmlTagObject := tagOf "data" [⟨"key", "d0"⟩] [] "10 20" 7

/-- A `data` element with no `key` attribute. -/
def exDataNoKey : XmlTagObject := tagOf "data" [] [] "1" 8

/-- A `data` element whose key id resolves to no recognized name. -/
def exDataUnknown : XmlTagObject := tagOf "data" [⟨"key", "zz"⟩] [] "1" 9

def exGA : GraphAttributes :=
  { attrs := GraphAttributes.nodeGraphics,
    nodeAttr := fun _ => {}, edgeAttr := fun _ => {} }

def exCA : ClusterGraphAttributes :=
  { attrs := 0, nodeAttr := fun _ => {}, edgeAttr := fun _ => {},
    clusterAttr := fun _ => { fillColor := ⟨3, 4, 5⟩ } }

/-! ## Basic lemmas about the attribute stores -/

@[simp]
theorem GraphAttributes.nodeAttr_setNode_self (GA : GraphAttributes) (v : Nat)
    (a : NodeAttrs) : (GA.setNode v a).nodeAttr v = a := by
  simp [GraphAttributes.setNode]

@[simp]
theorem GraphAttributes.attrs_setNode (GA : GraphAttributes) (v : Nat)
    (a : NodeAttrs) : (GA.setNode v a).attrs = GA.attrs := rfl

@[simp]
theorem GraphAttributes.edgeAttr_setEdge_self (GA : GraphAttributes) (e : Nat)
    (a : EdgeAttrs) : (GA.setEdge e a).edgeAttr e = a := by
  simp [GraphAttributes.setEdge]

@[simp]
theorem ClusterGraphAttributes.clusterAttr_setCluster_self
    (CA : ClusterGraphAttributes) (c : Nat) (a : ClusterAttrs) :
    (CA.setCluster c a).clusterAttr c = a := by
  simp [ClusterGraphAttributes.setCluster]

@[simp]
theorem ClusterGraphAttributes.clusterAttr_withMask
    (CA : ClusterGraphAttributes) (m : Nat) :
    (CA.withMask m).clusterAttr = CA.clusterAttr := rfl

theorem ClusterGraphAttributes.setCluster_withMask
    (CA : ClusterGraphAttributes) (m : Nat) (c : Nat) (a : ClusterAttrs) :
    (CA.withMask m).setCluster c a = (CA.setCluster c a).withMask m := rfl

/-! ## C2: the `Failed` state makes every read a no-op -/

/-- C2: if construction entered the `Failed` state, then each of the four read
variants, on every subsequent call, returns failure immediately and leaves the
caller's graph, cluster-tree and attribute objects completely unmodified (in
particular the target graph is not cleared). -/
theorem failed_parser_reads_are_noops (p : GraphMLParser) (h : p.m_error = true)
    (G : Graph) (GA : GraphAttributes) (C : ClusterGraph)
    (CA : ClusterGraphAttributes) :
    p.read G = (false, G) ∧ p.readGA G GA = (false, G, GA) ∧
    p.readC G C = (false, G, C) ∧ p.readCA G C CA = (false, G, C, CA) := by
  refine ⟨?_, ?_, ?_, ?_⟩ <;>
    simp [GraphMLParser.read, GraphMLParser.readGA, GraphMLParser.readC,
      GraphMLParser.readCA, h]

/-- Witness for C2: a parser built from a failed XML parse is in the error
state, and a flat read leaves a nonempty caller graph untouched. -/
theorem failed_parser_reads_are_noops_witness :
    (GraphMLParser.ofParseTree none).m_error = true ∧
    (GraphMLParser.ofParseTree none).read (Graph.mk 3 [(some 0, some 1)])
      = (false, Graph.mk 3 [(some 0, some 1)]) :=
  ⟨rfl,
   (failed_parser_reads_are_noops (GraphMLParser.ofParseTree none) rfl
      (Graph.mk 3 [(some 0, some 1)]) exGA (ClusterGraph.mk 1 0 [] []) exCA).1⟩

/-! ## C4: the cluster `size` arm falls through into the red-channel arm -/

/-- C4 (code bug): the claim says the cluster `size` case and the colour
channel cases are mutually exclusive, so a `size` data element never modifies
the fill colour.  The source's `a_size` case lacks a `break`, so control falls
through into the `a_r` case: on the cluster data element with text `"10 20"`
and key resolving to `size`, width and height become 10 and the red channel of
the fill colour is overwritten with 20 (it was 3 before). -/
theorem cluster_size_fallthrough_sets_red :
    (readDataCluster [("d0", "size")] exCA 0 exDataSize).1 = true ∧
    ((readDataCluster [("d0", "size")] exCA 0 exDataSize).2.1.clusterAttr 0).width = 10 ∧
    ((readDataCluster [("d0", "size")] exCA 0 exDataSize).2.1.clusterAttr 0).height = 10 ∧
    (exCA.clusterAttr 0).fillColor.red = 3 ∧
    ((readDataCluster [("d0", "size")] exCA 0 exDataSize).2.1.clusterAttr 0).fillColor.red
      = 20 := by
  decide

/-! ## C3: `size` writes width and height only when they were equal -/

/-- C3: when a `size` data element is dispatched for a node (with node
graphics enabled) or for a cluster, width and height are both set to the
parsed value exactly when width equaled height immediately before the data
element was processed; when they already differ, both are left unchanged. -/
theorem size_applied_iff_width_eq_height (mA : List (String × String))
    (GA : GraphAttributes) (v : Nat) (d : XmlTagObject) (ka : XmlAttributeObject)
    (CA : ClusterGraphAttributes) (c : Nat) (dc : XmlTagObject)
    (kc : XmlAttributeObject)
    (hk : findXmlAttributeObjectByName d "key" = some ka)
    (hres : graphml.toAttribute (lookupAttrName mA ka.value) = .a_size)
    (hbit : GA.attrs &&& GraphAttributes.nodeGraphics ≠ 0)
    (hkc : findXmlAttributeObjectByName dc "key" = some kc)
    (hresc : graphml.toAttribute (lookupAttrName mA kc.value) = .a_size) :
    ((readData mA GA v d).1 = true ∧
      ((GA.nodeAttr v).width = (GA.nodeAttr v).height →
        ((readData mA GA v d).2.1.nodeAttr v).width
            = (extractInt (mkSStream d.getValue)).1 ∧
        ((readData mA GA v d).2.1.nodeAttr v).height
            = (extractInt (mkSStream d.getValue)).1) ∧
      ((GA.nodeAttr v).width ≠ (GA.nodeAttr v).height →
        ((readData mA GA v d).2.1.nodeAttr v).width = (GA.nodeAttr v).width ∧
        ((readData mA GA v d).2.1.nodeAttr v).height = (GA.nodeAttr v).height)) ∧
    ((readDataCluster mA CA c dc).1 = true ∧
      ((CA.clusterAttr c).width = (CA.clusterAttr c).height →
        ((readDataCluster mA CA c dc).2.1.clusterAttr c).width
            = (extractInt (mkSStream dc.getValue)).1 ∧
        ((readDataCluster mA CA c dc).2.1.clusterAttr c).height
            = (extractInt (mkSStream dc.getValue)).1) ∧
      ((CA.clusterAttr c).width ≠ (CA.clusterAttr c).height →
        ((readDataCluster mA CA c dc).2.1.clusterAttr c).width
            = (CA.clusterAttr c).width ∧
        ((readDataCluster mA CA c dc).2.1.clusterAttr c).height
            = (CA.clusterAttr c).height)) := by
  constructor
  · by_cases heq : (GA.nodeAttr v).height = (GA.nodeAttr v).width
    · refine ⟨?_, ?_, ?_⟩
      · simp [readData, hk, hres, hbit, heq]
      · intro _
        simp [readData, hk, hres, hbit, heq, GraphAttributes.setNode]
      · intro hne
        exact absurd heq.symm hne
    · refine ⟨?_, ?_, ?_⟩
      · simp [readData, hk, hres, hbit, heq]
      · intro hwh
        exact absurd hwh.symm heq
      · intro _
        simp [readData, hk, hres, hbit, heq, GraphAttributes.setNode]
  · by_cases heq : (CA.clusterAttr c).width = (CA.clusterAttr c).height
    · refine ⟨?_, ?_, ?_⟩
      · simp [readDataCluster, hkc, hresc, heq]
      · intro _
        simp [readDataCluster, hkc, hresc, heq, ClusterGraphAttributes.setCluster]
      · intro hne
        exact absurd heq hne
    · refine ⟨?_, ?_, ?_⟩
      · simp [readDataCluster, hkc, hresc, heq]
      · intro hwh
        exact absurd hwh heq
      · intro _
        simp [readDataCluster, hkc, hresc, heq, ClusterGraphAttributes.setCluster]

/-- Witness for C3: a `size` element with value 10, node graphics enabled,
width = height = 0 beforehand: both become 10; and the cluster side likewise. -/
theorem size_applied_iff_width_eq_height_witness :
    ((readData [("d0", "size")] exGA 0 exDataSize).2.1.nodeAttr 0).width = 10 ∧
    ((readData [("d0", "size")] exGA 0 exDataSize).2.1.nodeAttr 0).height = 10 := by
  have h := size_applied_iff_width_eq_height [("d0", "size")] exGA 0 exDataSize
    ⟨"key", "d0"⟩ exCA 0 exDataSize ⟨"key", "d0"⟩ (by decide) (by decide)
    (by decide) (by decide) (by decide)
  have h2 := h.1.2.1 (by decide)
  exact ⟨by rw [h2.1]; decide, by rw [h2.2]; decide⟩

/-! ## C5: node/edge writes are gated by the capability mask, cluster writes
are not -/

/-- C5: for every resolved node or edge attribute kind, the typed field is
written only if the corresponding capability bit is enabled: with the bit
disabled the dispatcher succeeds, emits no diagnostic, and leaves the
attribute storage completely unchanged.  Resolved cluster attribute kinds are
dispatched with no capability-mask check at all: the cluster dispatcher's
outcome is the same for every mask. -/
theorem capability_mask_gates_node_edge_writes :
    (∀ (mA : List (String × String)) (GA : GraphAttributes) (v : Nat)
        (d : XmlTagObject) (ka : XmlAttributeObject),
      findXmlAttributeObjectByName d "key" = some ka →
      isNodeAttrKind (graphml.toAttribute (lookupAttrName mA ka.value)) = true →
      GA.attrs &&& nodeCapBit (graphml.toAttribute (lookupAttrName mA ka.value)) = 0 →
      readData mA GA v d = (true, GA, [])) ∧
    (∀ (mA : List (String × String)) (GA : GraphAttributes) (e : Nat)
        (d : XmlTagObject) (ka : XmlAttributeObject),
      findXmlAttributeObjectByName d "key" = some ka →
      isEdgeAttrKind (graphml.toAttribute (lookupAttrName mA ka.value)) = true →
      GA.attrs &&& edgeCapBit (graphml.toAttribute (lookupAttrName mA ka.value)) = 0 →
      readDataEdge mA GA e d = (true, GA, [])) ∧
    (∀ (mA : List (String × String)) (CA : ClusterGraphAttributes) (c : Nat)
        (d : XmlTagObject) (m : Nat),
      readDataCluster mA (CA.withMask m) c d
        = ((readDataCluster mA CA c d).1,
           (readDataCluster mA CA c d).2.1.withMask m,
           (readDataCluster mA CA c d).2.2)) := by
  refine ⟨?_, ?_, ?_⟩
  · intro mA GA v d ka hk hkind hzero
    cases ha : graphml.toAttribute (lookupAttrName mA ka.value) <;>
      rw [ha] at hkind hzero <;>
      simp_all [readData, hk, nodeCapBit, isNodeAttrKind]
  · intro mA GA e d ka hk hkind hzero
    cases ha : graphml.toAttribute (lookupAttrName mA ka.value) <;>
      rw [ha] at hkind hzero <;>
      simp_all [readDataEdge, hk, edgeCapBit, isEdgeAttrKind]
    · -- a_edgeWeight: neither weight bit is enabled
      have h4 : GA.attrs &&& GraphAttributes.edgeIntWeight = 0 := by
        have h := congrArg (fun n => n &&& GraphAttributes.edgeIntWeight) hzero
        simpa [Nat.and_assoc] using h
      have h8 : GA.attrs &&& GraphAttributes.edgeDoubleWeight = 0 := by
        have h := congrArg (fun n => n &&& GraphAttributes.edgeDoubleWeight) hzero
        simpa [Nat.and_assoc] using h
      simp_all [GraphAttributes.edgeIntWeight, GraphAttributes.edgeDoubleWeight]
  · intro mA CA c d m
    cases hk : findXmlAttributeObjectByName d "key" with
    | none => simp [readDataCluster, hk]
    | some ka =>
      cases ha : graphml.toAttribute (lookupAttrName mA ka.value) <;>
        simp [readDataCluster, hk, ha, ClusterGraphAttributes.setCluster_withMask,
          ClusterGraphAttributes.clusterAttr_withMask]
      -- a_size: the conditional width/height update and the fallthrough
      by_cases hwh : (CA.clusterAttr c).width = (CA.clusterAttr c).height <;>
        simp [hwh, ClusterGraphAttributes.setCluster_withMask,
          ClusterGraphAttributes.clusterAttr_withMask]

/-- Witness for C5: with an all-zero mask a node `x` data element is silently
discarded, and the cluster dispatcher behaves identically under any mask. -/
theorem capability_mask_gates_node_edge_writes_witness :
    readData [("d0", "x")]
      { attrs := 0, nodeAttr := fun _ => {}, edgeAttr := fun _ => {} } 0
      (tagOf "data" [⟨"key", "d0"⟩] [] "3" 1)
      = (true, { attrs := 0, nodeAttr := fun _ => {}, edgeAttr := fun _ => {} }, []) ∧
    readDataCluster [("d0", "x")] (exCA.withMask 7) 0
      (tagOf "data" [⟨"key", "d0"⟩] [] "3" 1)
      = ((readDataCluster [("d0", "x")] exCA 0 (tagOf "data" [⟨"key", "d0"⟩] [] "3" 1)).1,
         (readDataCluster [("d0", "x")] exCA 0
            (tagOf "data" [⟨"key", "d0"⟩] [] "3" 1)).2.1.withMask 7,
         (readDataCluster [("d0", "x")] exCA 0
            (tagOf "data" [⟨"key", "d0"⟩] [] "3" 1)).2.2) :=
  ⟨capability_mask_gates_node_edge_writes.1 [("d0", "x")]
      { attrs := 0, nodeAttr := fun _ => {}, edgeAttr := fun _ => {} } 0
      (tagOf "data" [⟨"key", "d0"⟩] [] "3" 1) ⟨"key", "d0"⟩
      (by decide) (by decide) (by decide),
   capability_mask_gates_node_edge_writes.2.2 [("d0", "x")] exCA 0
      (tagOf "data" [⟨"key", "d0"⟩] [] "3" 1) 7⟩

/-! ## C6: an unrecognized key is an advisory, processing continues -/

/-- C6: a data element whose key id resolves to an unrecognized attribute name
never fails: each dispatcher returns success, leaves the storage unchanged and
reports an advisory diagnostic carrying the key id and the element's source
line; and removing such an element from a `data` list changes neither the
success of the surrounding attribute loop nor the resulting storage, so every
other attribute is still applied. -/
theorem unknown_key_is_advisory (mA : List (String × String))
    (GA : GraphAttributes) (v e : Nat) (CA : ClusterGraphAttributes) (c : Nat)
    (d : XmlTagObject) (ka : XmlAttributeObject)
    (hk : findXmlAttributeObjectByName d "key" = some ka)
    (hres : graphml.toAttribute (lookupAttrName mA ka.value) = .a_unknown) :
    readData mA GA v d = (true, GA, [(ka.value, d.getLine)]) ∧
    readDataEdge mA GA e d = (true, GA, [(ka.value, d.getLine)]) ∧
    readDataCluster mA CA c d = (true, CA, [(ka.value, d.getLine)]) ∧
    (∀ (ds1 ds2 : List XmlTagObject) (GA0 : GraphAttributes),
      (readAttributesLoop mA v (ds1 ++ d :: ds2) GA0).1
        = (readAttributesLoop mA v (ds1 ++ ds2) GA0).1 ∧
      (readAttributesLoop mA v (ds1 ++ d :: ds2) GA0).2.1
        = (readAttributesLoop mA v (ds1 ++ ds2) GA0).2.1) ∧
    (∀ (ds1 ds2 : List XmlTagObject) (GA0 : GraphAttributes),
      (readAttributesEdgeLoop mA e (ds1 ++ d :: ds2) GA0).1
        = (readAttributesEdgeLoop mA e (ds1 ++ ds2) GA0).1 ∧
      (readAttributesEdgeLoop mA e (ds1 ++ d :: ds2) GA0).2.1
        = (readAttributesEdgeLoop mA e (ds1 ++ ds2) GA0).2.1) ∧
    (∀ (ds1 ds2 : List XmlTagObject) (CA0 : ClusterGraphAttributes),
      (readAttributesClusterLoop mA c (ds1 ++ d :: ds2) CA0).1
        = (readAttributesClusterLoop mA c (ds1 ++ ds2) CA0).1 ∧
      (readAttributesClusterLoop mA c (ds1 ++ d :: ds2) CA0).2.1
        = (readAttributesClusterLoop mA c (ds1 ++ ds2) CA0).2.1) := by
  have hD : ∀ GA' : GraphAttributes,
      readData mA GA' v d = (true, GA', [(ka.value, d.getLine)]) := by
    intro GA'
    simp [readData, hk, hres]
  have hE : ∀ GA' : GraphAttributes,
      readDataEdge mA GA' e d = (true, GA', [(ka.value, d.getLine)]) := by
    intro GA'
    simp [readDataEdge, hk, hres]
  have hC : ∀ CA' : ClusterGraphAttributes,
      readDataCluster mA CA' c d = (true, CA', [(ka.value, d.getLine)]) := by
    intro CA'
    simp [readDataCluster, hk, hres]
  refine ⟨hD GA, hE GA, hC CA, ?_, ?_, ?_⟩
  · intro ds1 ds2 GA0
    induction ds1 generalizing GA0 with
    | nil => simp [readAttributesLoop, hD GA0]
    | cons x xs ih =>
      rcases hx : readData mA GA0 v x with ⟨b, GA1, w⟩
      cases b
      · simp [readAttributesLoop, hx]
      · simp [readAttributesLoop, hx, ih GA1]
  · intro ds1 ds2 GA0
    induction ds1 generalizing GA0 with
    | nil => simp [readAttributesEdgeLoop, hE GA0]
    | cons x xs ih =>
      rcases hx : readDataEdge mA GA0 e x with ⟨b, GA1, w⟩
      cases b
      · simp [readAttributesEdgeLoop, hx]
      · simp [readAttributesEdgeLoop, hx, ih GA1]
  · intro ds1 ds2 CA0
    induction ds1 generalizing CA0 with
    | nil => simp [readAttributesClusterLoop, hC CA0]
    | cons x xs ih =>
      rcases hx : readDataCluster mA CA0 c x with ⟨b, CA1, w⟩
      cases b
      · simp [readAttributesClusterLoop, hx]
      · simp [readAttributesClusterLoop, hx, ih CA1]

/-- Witness for C6: the key id `zz` is not declared, so it resolves to the
unknown sentinel; the dispatcher succeeds with an advisory carrying `zz` and
line 9. -/
theorem unknown_key_is_advisory_witness :
    readData [] exGA 0 exDataUnknown = (true, exGA, [("zz", 9)]) ∧
    (readAttributesLoop [] 0 ([] ++ exDataUnknown :: []) exGA).1
      = (readAttributesLoop [] 0 ([] ++ []) exGA).1 :=
  ⟨(unknown_key_is_advisory [] exGA 0 0 exCA 0 exDataUnknown ⟨"key", "zz"⟩
      (by decide) (by decide)).1,
   ((unknown_key_is_advisory [] exGA 0 0 exCA 0 exDataUnknown ⟨"key", "zz"⟩
      (by decide) (by decide)).2.2.2.1 [] [] exGA).1⟩

/-! ## The flat builder: executions without attribute storage -/

/-- A successful pass of the node loop without attribute storage: every node
element carries an id, one node is created per element, edges and the absent
attribute storage are untouched, and the registry lookup of any undeclared id
is unchanged. -/
theorem readNodesLoop_spec (mA : List (String × String)) :
    ∀ (l : List XmlTagObject) (st : FlatState), st.GA = none →
    (∀ t ∈ l, (findXmlAttributeObjectByName t "id").isSome = true) →
    (readNodesLoop mA l st).1 = true ∧
    (readNodesLoop mA l st).2.G.numNodes = st.G.numNodes + l.length ∧
    (readNodesLoop mA l st).2.G.edges = st.G.edges ∧
    (readNodesLoop mA l st).2.GA = none ∧
    (∀ s, s ∉ declaredIds l →
      lookupNodeId (readNodesLoop mA l st).2.m_nodeId s
        = lookupNodeId st.m_nodeId s) := by
  intro l
  induction l with
  | nil =>
    intro st hGA _
    simp [readNodesLoop, declaredIds, hGA]
  | cons t ts ih =>
    intro st hGA hids
    rcases hid : findXmlAttributeObjectByName t "id" with _ | a
    · have := hids t (List.mem_cons_self t ts)
      rw [hid] at this
      simp at this
    · have hstep :
          readNodesLoop mA (t :: ts) st
            = readNodesLoop mA ts
                { G := st.G.newNode.1, GA := none,
                  m_nodeId := (a.value, st.G.newNode.2) :: st.m_nodeId } := by
        simp [readNodesLoop, hid, hGA, Graph.newNode]
      have hrest := ih
        { G := st.G.newNode.1, GA := none,
          m_nodeId := (a.value, st.G.newNode.2) :: st.m_nodeId } rfl
        (fun x hx => hids x (List.mem_cons_of_mem t hx))
      refine ⟨?_, ?_, ?_, ?_, ?_⟩
      · rw [hstep]; exact hrest.1
      · rw [hstep, hrest.2.1]
        simp [Graph.newNode]
        omega
      · rw [hstep, hrest.2.2.1]
        simp [Graph.newNode]
      · rw [hstep]; exact hrest.2.2.2.1
      · intro s hs
        have hs1 : s ∉ declaredIds ts := by
          intro hmem
          exact hs (by simp [declaredIds, hid] at *; exact Or.inr hmem)
        have hs2 : s ≠ a.value := by
          intro hcontra
          exact hs (by simp [declaredIds, hid, hcontra])
        rw [hstep, hrest.2.2.2.2 s hs1]
        have hbeqf : (a.value == s) = false := by
          simp only [beq_eq_false_iff_ne, ne_eq]
          exact fun h => hs2 h.symm
        simp [lookupNodeId, List.find?, hbeqf]

/-- A successful pass of the edge loop without attribute storage: every edge
element carries both endpoint attributes; one edge is appended per element,
its endpoints being the registry lookups of the element's source and target
values; nodes and registry are untouched. -/
theorem readEdgesLoop_spec (mA : List (String × String)) :
    ∀ (l : List XmlTagObject) (st : FlatState), st.GA = none →
    (∀ t ∈ l, (findXmlAttributeObjectByName t "source").isSome = true ∧
        (findXmlAttributeObjectByName t "target").isSome = true) →
    (readEdgesLoop mA l st).1 = true ∧
    (readEdgesLoop mA l st).2.G.numNodes = st.G.numNodes ∧
    (readEdgesLoop mA l st).2.GA = none ∧
    (readEdgesLoop mA l st).2.m_nodeId = st.m_nodeId ∧
    (readEdgesLoop mA l st).2.G.edges
      = st.G.edges ++ l.map (fun t =>
          (lookupNodeId st.m_nodeId (attrValue t "source"),
           lookupNodeId st.m_nodeId (attrValue t "target"))) := by
  intro l
  induction l with
  | nil =>
    intro st hGA _
    simp [readEdgesLoop, hGA]
  | cons t ts ih =>
    intro st hGA hrefs
    rcases hsrc : findXmlAttributeObjectByName t "source" with _ | sa
    · have := (hrefs t (List.mem_cons_self t ts)).1
      rw [hsrc] at this
      simp at this
    rcases htgt : findXmlAttributeObjectByName t "target" with _ | ta
    · have := (hrefs t (List.mem_cons_self t ts)).2
      rw [htgt] at this
      simp at this
    have hstep :
        readEdgesLoop mA (t :: ts) st
          = readEdgesLoop mA ts
              { st with G := (st.G.newEdge (lookupNodeId st.m_nodeId sa.value)
                  (lookupNodeId st.m_nodeId ta.value)).1 } := by
      simp [readEdgesLoop, hsrc, htgt, hGA]
    have hrest := ih
      { st with G := (st.G.newEdge (lookupNodeId st.m_nodeId sa.value)
          (lookupNodeId st.m_nodeId ta.value)).1 } (by simp [hGA])
      (fun x hx => hrefs x (List.mem_cons_of_mem t hx))
    refine ⟨?_, ?_, ?_, ?_, ?_⟩
    · rw [hstep]; exact hrest.1
    · rw [hstep, hrest.2.1]; simp [Graph.newEdge]
    · rw [hstep]; exact hrest.2.2.1
    · rw [hstep, hrest.2.2.2.1]
    · rw [hstep, hrest.2.2.2.2]
      simp [Graph.newEdge, attrValue, hsrc, htgt]

/-- `edgeRefsOk` implies both endpoint attributes are present. -/
theorem edgeRefsOk_isSome (ids : List String) (t : XmlTagObject)
    (h : edgeRefsOk ids t = true) :
    (findXmlAttributeObjectByName t "source").isSome = true ∧
    (findXmlAttributeObjectByName t "target").isSome = true := by
  unfold edgeRefsOk at h
  rcases hsrc : findXmlAttributeObjectByName t "source" with _ | sa <;>
    rcases htgt : findXmlAttributeObjectByName t "target" with _ | ta <;>
      rw [hsrc, htgt] at h <;> simp_all

/-! ## C1: a valid flat document yields exactly N nodes and M edges -/

/-- C1: for a valid document whose graph element has N node elements with
distinct declared ids and M edge elements whose source and target reference
declared ids, the flat (graph-only) read succeeds and produces exactly N
nodes and M edges. -/
theorem flat_read_counts (p : GraphMLParser) (gTag : XmlTagObject) (G : Graph)
    (herr : p.m_error = false) (hg : p.m_graphTag = some gTag)
    (hids : ∀ t ∈ findSonXmlTagObjectsByName gTag "node",
      (findXmlAttributeObjectByName t "id").isSome = true)
    (hdis : (declaredIds (findSonXmlTagObjectsByName gTag "node")).Nodup)
    (hrefs : ∀ t ∈ findSonXmlTagObjectsByName gTag "edge",
      edgeRefsOk (declaredIds (findSonXmlTagObjectsByName gTag "node")) t = true) :
    (p.read G).1 = true ∧
    (p.read G).2.numNodes = (findSonXmlTagObjectsByName gTag "node").length ∧
    (p.read G).2.edges.length = (findSonXmlTagObjectsByName gTag "edge").length := by
  have hn := readNodesLoop_spec p.m_attrName (findSonXmlTagObjectsByName gTag "node")
    { G := G.clear, GA := none, m_nodeId := [] } rfl hids
  rcases hrn : readNodesLoop p.m_attrName (findSonXmlTagObjectsByName gTag "node")
      { G := G.clear, GA := none, m_nodeId := [] } with ⟨b1, st1⟩
  rw [hrn] at hn
  obtain ⟨hb1, hnum, hedg, hGA1, _⟩ := hn
  replace hb1 : b1 = true := hb1
  subst hb1
  replace hnum : st1.G.numNodes = 0 + (findSonXmlTagObjectsByName gTag "node").length := hnum
  replace hedg : st1.G.edges = [] := hedg
  replace hGA1 : st1.GA = none := hGA1
  have he := readEdgesLoop_spec p.m_attrName (findSonXmlTagObjectsByName gTag "edge")
    st1 hGA1 (fun t ht => edgeRefsOk_isSome _ t (hrefs t ht))
  rcases hre : readEdgesLoop p.m_attrName (findSonXmlTagObjectsByName gTag "edge")
      st1 with ⟨b2, st2⟩
  rw [hre] at he
  obtain ⟨hb2, hnum2, _, _, hedges2⟩ := he
  replace hb2 : b2 = true := hb2
  subst hb2
  replace hnum2 : st2.G.numNodes = st1.G.numNodes := hnum2
  replace hedges2 : st2.G.edges
      = st1.G.edges ++ (findSonXmlTagObjectsByName gTag "edge").map (fun t =>
          (lookupNodeId st1.m_nodeId (attrValue t "source"),
           lookupNodeId st1.m_nodeId (attrValue t "target"))) := hedges2
  have h1 : readNodes p.m_attrName { G := G.clear, GA := none, m_nodeId := [] } gTag
      = (true, st1) := hrn
  have h2 : readEdges p.m_attrName st1 gTag = (true, st2) := hre
  have hread : p.read G = (true, st2.G) := by
    simp [GraphMLParser.read, herr, hg, h1, h2]
  rw [hread]
  refine ⟨rfl, ?_, ?_⟩
  · show st2.G.numNodes = _
    rw [hnum2, hnum]
    omega
  · show st2.G.edges.length = _
    rw [hedges2, hedg]
    simp

/-- Witness for C1: the two-node one-edge example document. -/
theorem flat_read_counts_witness :
    (exParser.read (Graph.mk 7 [(none, none)])).1 = true ∧
    (exParser.read (Graph.mk 7 [(none, none)])).2.numNodes = 2 ∧
    (exParser.read (Graph.mk 7 [(none, none)])).2.edges.length = 1 :=
  flat_read_counts exParser exGraphTag (Graph.mk 7 [(none, none)])
    (by decide) rfl (by decide) (by decide) (by decide)

/-! ## C10: an unregistered edge endpoint becomes a null handle, no failure -/

/-- C10: when an edge element's source id was never registered during the
current read, the registry lookup yields the null node handle, an edge is
still created from it, and the read succeeds (one edge per edge element). -/
theorem unregistered_endpoint_null_handle (p : GraphMLParser)
    (gTag : XmlTagObject) (G : Graph) (et : XmlTagObject)
    (sa : XmlAttributeObject)
    (herr : p.m_error = false) (hg : p.m_graphTag = some gTag)
    (hids : ∀ t ∈ findSonXmlTagObjectsByName gTag "node",
      (findXmlAttributeObjectByName t "id").isSome = true)
    (hrefs : ∀ t ∈ findSonXmlTagObjectsByName gTag "edge",
      (findXmlAttributeObjectByName t "source").isSome = true ∧
      (findXmlAttributeObjectByName t "target").isSome = true)
    (het : et ∈ findSonXmlTagObjectsByName gTag "edge")
    (hs : findXmlAttributeObjectByName et "source" = some sa)
    (hunreg : sa.value ∉ declaredIds (findSonXmlTagObjectsByName gTag "node")) :
    (p.read G).1 = true ∧
    (p.read G).2.edges.length = (findSonXmlTagObjectsByName gTag "edge").length ∧
    ∃ pr ∈ (p.read G).2.edges, pr.1 = none := by
  have hn := readNodesLoop_spec p.m_attrName (findSonXmlTagObjectsByName gTag "node")
    { G := G.clear, GA := none, m_nodeId := [] } rfl hids
  rcases hrn : readNodesLoop p.m_attrName (findSonXmlTagObjectsByName gTag "node")
      { G := G.clear, GA := none, m_nodeId := [] } with ⟨b1, st1⟩
  rw [hrn] at hn
  obtain ⟨hb1, _, hedg, hGA1, hlook⟩ := hn
  replace hb1 : b1 = true := hb1
  subst hb1
  replace hedg : st1.G.edges = [] := hedg
  replace hGA1 : st1.GA = none := hGA1
  replace hlook : ∀ s, s ∉ declaredIds (findSonXmlTagObjectsByName gTag "node") →
      lookupNodeId st1.m_nodeId s = none := hlook
  have he := readEdgesLoop_spec p.m_attrName (findSonXmlTagObjectsByName gTag "edge")
    st1 hGA1 hrefs
  rcases hre : readEdgesLoop p.m_attrName (findSonXmlTagObjectsByName gTag "edge")
      st1 with ⟨b2, st2⟩
  rw [hre] at he
  obtain ⟨hb2, _, _, _, hedges2⟩ := he
  replace hb2 : b2 = true := hb2
  subst hb2
  replace hedges2 : st2.G.edges
      = st1.G.edges ++ (findSonXmlTagObjectsByName gTag "edge").map (fun t =>
          (lookupNodeId st1.m_nodeId (attrValue t "source"),
           lookupNodeId st1.m_nodeId (attrValue t "target"))) := hedges2
  have h1 : readNodes p.m_attrName { G := G.clear, GA := none, m_nodeId := [] } gTag
      = (true, st1) := hrn
  have h2 : readEdges p.m_attrName st1 gTag = (true, st2) := hre
  have hread : p.read G = (true, st2.G) := by
    simp [GraphMLParser.read, herr, hg, h1, h2]
  rw [hread]
  refine ⟨rfl, ?_, ?_⟩
  · show st2.G.edges.length = _
    rw [hedges2, hedg]
    simp
  · refine ⟨(lookupNodeId st1.m_nodeId (attrValue et "source"),
      lookupNodeId st1.m_nodeId (attrValue et "target")), ?_, ?_⟩
    · show _ ∈ st2.G.edges
      rw [hedges2]
      exact List.mem_append_right _ (List.mem_map_of_mem _ het)
    · have hv : attrValue et "source" = sa.value := by simp [attrValue, hs]
      show lookupNodeId st1.m_nodeId (attrValue et "source") = none
      rw [hv]
      exact hlook sa.value hunreg

/-- Witness for C10: the example document extended with an edge whose source
id `zz` is never declared; the read succeeds and some edge has a null
source handle. -/
theorem unregistered_endpoint_null_handle_witness :
    ((GraphMLParser.ofParseTree (some (tagOf "graphml" []
        [tagOf "graph" [] [exNode "n0", exEdge "zz" "n0"] "" 0] "" 0))).read
      (Graph.mk 0 [])).1 = true ∧
    ((GraphMLParser.ofParseTree (some (tagOf "graphml" []
        [tagOf "graph" [] [exNode "n0", exEdge "zz" "n0"] "" 0] "" 0))).read
      (Graph.mk 0 [])).2.edges.length = 1 ∧
    ∃ pr ∈ ((GraphMLParser.ofParseTree (some (tagOf "graphml" []
        [tagOf "graph" [] [exNode "n0", exEdge "zz" "n0"] "" 0] "" 0))).read
      (Graph.mk 0 [])).2.edges, pr.1 = none :=
  unregistered_endpoint_null_handle
    (GraphMLParser.ofParseTree (some (tagOf "graphml" []
      [tagOf "graph" [] [exNode "n0", exEdge "zz" "n0"] "" 0] "" 0)))
    (tagOf "graph" [] [exNode "n0", exEdge "zz" "n0"] "" 0)
    (Graph.mk 0 []) (exEdge "zz" "n0") ⟨"source", "zz"⟩
    (by decide) rfl (by decide) (by decide) (by decide) (by decide) (by decide)

/-! ## Failure propagation in the flat builder -/

/-- A node element without an id anywhere in the processed list makes the
node loop fail. -/
theorem readNodesLoop_missing_id_false (mA : List (String × String)) :
    ∀ (l : List XmlTagObject) (st : FlatState) (t : XmlTagObject),
    t ∈ l → findXmlAttributeObjectByName t "id" = none →
    (readNodesLoop mA l st).1 = false := by
  intro l
  induction l with
  | nil =>
    intro st t ht _
    simp at ht
  | cons x xs ih =>
    intro st t ht hid
    rcases hx : findXmlAttributeObjectByName x "id" with _ | a
    · simp [readNodesLoop, hx]
    · rcases List.mem_cons.mp ht with rfl | hmem
      · rw [hx] at hid
        simp at hid
      · cases hGA : st.GA with
        | none =>
          have hstep : readNodesLoop mA (x :: xs) st = readNodesLoop mA xs
              { G := st.G.newNode.1, GA := none,
                m_nodeId := (a.value, st.G.newNode.2) :: st.m_nodeId } := by
            simp [readNodesLoop, hx, hGA, Graph.newNode]
          rw [hstep]
          exact ih _ t hmem hid
        | some ga =>
          rcases hra : readAttributes mA ga st.G.numNodes x with ⟨b, ga1, w⟩
          cases b
          · simp [readNodesLoop, hx, hGA, Graph.newNode, hra]
          · have hstep : readNodesLoop mA (x :: xs) st = readNodesLoop mA xs
                { G := st.G.newNode.1, GA := some ga1,
                  m_nodeId := (a.value, st.G.newNode.2) :: st.m_nodeId } := by
              simp [readNodesLoop, hx, hGA, Graph.newNode, hra]
            rw [hstep]
            exact ih _ t hmem hid

/-- An edge element without a source or a target attribute anywhere in the
processed list makes the edge loop fail. -/
theorem readEdgesLoop_missing_endpoint_false (mA : List (String × String)) :
    ∀ (l : List XmlTagObject) (st : FlatState) (t : XmlTagObject),
    t ∈ l →
    (findXmlAttributeObjectByName t "source" = none ∨
     findXmlAttributeObjectByName t "target" = none) →
    (readEdgesLoop mA l st).1 = false := by
  intro l
  induction l with
  | nil =>
    intro st t ht _
    simp at ht
  | cons x xs ih =>
    intro st t ht hend
    rcases hsx : findXmlAttributeObjectByName x "source" with _ | sa
    · simp [readEdgesLoop, hsx]
    rcases htx : findXmlAttributeObjectByName x "target" with _ | ta
    · simp [readEdgesLoop, hsx, htx]
    rcases List.mem_cons.mp ht with rfl | hmem
    · rw [hsx, htx] at hend
      simp at hend
    · cases hGA : st.GA with
      | none =>
        have hstep : readEdgesLoop mA (x :: xs) st = readEdgesLoop mA xs
            { st with G := (st.G.newEdge (lookupNodeId st.m_nodeId sa.value)
                (lookupNodeId st.m_nodeId ta.value)).1 } := by
          simp [readEdgesLoop, Graph.newEdge, hsx, htx, hGA]
        rw [hstep]
        exact ih _ t hmem hend
      | some ga =>
        rcases hra : readAttributesEdge mA ga st.G.edges.length x with ⟨b, ga1, w⟩
        cases b
        · simp [readEdgesLoop, Graph.newEdge, hsx, htx, hGA, hra]
        · have hstep : readEdgesLoop mA (x :: xs) st = readEdgesLoop mA xs
              { st with G := (st.G.newEdge (lookupNodeId st.m_nodeId sa.value)
                  (lookupNodeId st.m_nodeId ta.value)).1, GA := some ga1 } := by
            simp [readEdgesLoop, Graph.newEdge, hsx, htx, hGA, hra]
          rw [hstep]
          exact ih _ t hmem hend

/-- A data element without a key attribute anywhere in the processed list
makes the node attribute loop fail. -/
theorem readAttributesLoop_missing_key_false (mA : List (String × String))
    (v : Nat) :
    ∀ (ds : List XmlTagObject) (GA0 : GraphAttributes) (d : XmlTagObject),
    d ∈ ds → findXmlAttributeObjectByName d "key" = none →
    (readAttributesLoop mA v ds GA0).1 = false := by
  intro ds
  induction ds with
  | nil =>
    intro GA0 d hd _
    simp at hd
  | cons x xs ih =>
    intro GA0 d hd hkey
    rcases List.mem_cons.mp hd with rfl | hmem
    · simp [readAttributesLoop, readData, hkey]
    · rcases hx : readData mA GA0 v x with ⟨b, GA1, w⟩
      cases b
      · simp [readAttributesLoop, hx]
      · simp [readAttributesLoop, hx, ih GA1 d hmem hkey]

/-- A data element without a key attribute anywhere in the processed list
makes the edge attribute loop fail. -/
theorem readAttributesEdgeLoop_missing_key_false (mA : List (String × String))
    (e : Nat) :
    ∀ (ds : List XmlTagObject) (GA0 : GraphAttributes) (d : XmlTagObject),
    d ∈ ds → findXmlAttributeObjectByName d "key" = none →
    (readAttributesEdgeLoop mA e ds GA0).1 = false := by
  intro ds
  induction ds with
  | nil =>
    intro GA0 d hd _
    simp at hd
  | cons x xs ih =>
    intro GA0 d hd hkey
    rcases List.mem_cons.mp hd with rfl | hmem
    · simp [readAttributesEdgeLoop, readDataEdge, hkey]
    · rcases hx : readDataEdge mA GA0 e x with ⟨b, GA1, w⟩
      cases b
      · simp [readAttributesEdgeLoop, hx]
      · simp [readAttributesEdgeLoop, hx, ih GA1 d hmem hkey]

/-- A data element without a key attribute anywhere in the processed list
makes the cluster attribute loop fail. -/
theorem readAttributesClusterLoop_missing_key_false (mA : List (String × String))
    (c : Nat) :
    ∀ (ds : List XmlTagObject) (CA0 : ClusterGraphAttributes) (d : XmlTagObject),
    d ∈ ds → findXmlAttributeObjectByName d "key" = none →
    (readAttributesClusterLoop mA c ds CA0).1 = false := by
  intro ds
  induction ds with
  | nil =>
    intro CA0 d hd _
    simp at hd
  | cons x xs ih =>
    intro CA0 d hd hkey
    rcases List.mem_cons.mp hd with rfl | hmem
    · simp [readAttributesClusterLoop, readDataCluster, hkey]
    · rcases hx : readDataCluster mA CA0 c x with ⟨b, CA1, w⟩
      cases b
      · simp [readAttributesClusterLoop, hx]
      · simp [readAttributesClusterLoop, hx, ih CA1 d hmem hkey]

/-- The node loop keeps the attribute storage present. -/
theorem readNodesLoop_GA_isSome (mA : List (String × String)) :
    ∀ (l : List XmlTagObject) (st : FlatState), st.GA.isSome = true →
    ((readNodesLoop mA l st).2.GA).isSome = true := by
  intro l
  induction l with
  | nil =>
    intro st h
    simpa [readNodesLoop] using h
  | cons x xs ih =>
    intro st h
    obtain ⟨ga, hga⟩ := Option.isSome_iff_exists.mp h
    rcases hx : findXmlAttributeObjectByName x "id" with _ | a
    · simpa [readNodesLoop, hx] using h
    · rcases hra : readAttributes mA ga st.G.numNodes x with ⟨b, ga1, w⟩
      cases b
      · simp [readNodesLoop, hx, hga, Graph.newNode, hra]
      · have hstep : readNodesLoop mA (x :: xs) st = readNodesLoop mA xs
            { G := st.G.newNode.1, GA := some ga1,
              m_nodeId := (a.value, st.G.newNode.2) :: st.m_nodeId } := by
          simp [readNodesLoop, hx, hga, Graph.newNode, hra]
        rw [hstep]
        exact ih _ (by simp)

/-- A node element carrying a keyless data child makes the node loop fail
whenever attribute storage is supplied. -/
theorem readNodesLoop_keyless_data_false (mA : List (String × String))
    (nt d : XmlTagObject) (hd : d ∈ findSonXmlTagObjectsByName nt "data")
    (hkey : findXmlAttributeObjectByName d "key" = none) :
    ∀ (l : List XmlTagObject) (st : FlatState), st.GA.isSome = true →
    nt ∈ l → (readNodesLoop mA l st).1 = false := by
  intro l
  induction l with
  | nil =>
    intro st _ ht
    simp at ht
  | cons x xs ih =>
    intro st h ht
    obtain ⟨ga, hga⟩ := Option.isSome_iff_exists.mp h
    rcases hx : findXmlAttributeObjectByName x "id" with _ | a
    · simp [readNodesLoop, hx]
    rcases List.mem_cons.mp ht with rfl | hmem
    · have hloop := readAttributesLoop_missing_key_false mA st.G.newNode.2
        (findSonXmlTagObjectsByName nt "data") ga d hd hkey
      rcases hra : readAttributes mA ga st.G.numNodes nt with ⟨b, ga1, w⟩
      have hb : b = false := by
        have : (readAttributes mA ga st.G.numNodes nt).1 = false := hloop
        rw [hra] at this
        exact this
      subst hb
      simp [readNodesLoop, hx, hga, Graph.newNode, hra]
    · rcases hra : readAttributes mA ga st.G.numNodes x with ⟨b, ga1, w⟩
      cases b
      · simp [readNodesLoop, hx, hga, Graph.newNode, hra]
      · have hstep : readNodesLoop mA (x :: xs) st = readNodesLoop mA xs
            { G := st.G.newNode.1, GA := some ga1,
              m_nodeId := (a.value, st.G.newNode.2) :: st.m_nodeId } := by
          simp [readNodesLoop, hx, hga, Graph.newNode, hra]
        rw [hstep]
        exact ih _ (by simp) hmem

/-- An edge element carrying a keyless data child makes the edge loop fail
whenever attribute storage is supplied. -/
theorem readEdgesLoop_keyless_data_false (mA : List (String × String))
    (et d : XmlTagObject) (hd : d ∈ findSonXmlTagObjectsByName et "data")
    (hkey : findXmlAttributeObjectByName d "key" = none) :
    ∀ (l : List XmlTagObject) (st : FlatState), st.GA.isSome = true →
    et ∈ l → (readEdgesLoop mA l st).1 = false := by
  intro l
  induction l with
  | nil =>
    intro st _ ht
    simp at ht
  | cons x xs ih =>
    intro st h ht
    obtain ⟨ga, hga⟩ := Option.isSome_iff_exists.mp h
    rcases hsx : findXmlAttributeObjectByName x "source" with _ | sa
    · simp [readEdgesLoop, hsx]
    rcases htx : findXmlAttributeObjectByName x "target" with _ | ta
    · simp [readEdgesLoop, hsx, htx]
    rcases List.mem_cons.mp ht with rfl | hmem
    · have hloop := readAttributesEdgeLoop_missing_key_false mA st.G.edges.length
        (findSonXmlTagObjectsByName et "data") ga d hd hkey
      rcases hra : readAttributesEdge mA ga st.G.edges.length et with ⟨b, ga1, w⟩
      have hb : b = false := by
        have : (readAttributesEdge mA ga st.G.edges.length et).1 = false := hloop
        rw [hra] at this
        exact this
      subst hb
      simp [readEdgesLoop, Graph.newEdge, hsx, htx, hga, hra]
    · rcases hra : readAttributesEdge mA ga st.G.edges.length x with ⟨b, ga1, w⟩
      cases b
      · simp [readEdgesLoop, Graph.newEdge, hsx, htx, hga, hra]
      · have hstep : readEdgesLoop mA (x :: xs) st = readEdgesLoop mA xs
            { st with G := (st.G.newEdge (lookupNodeId st.m_nodeId sa.value)
                (lookupNodeId st.m_nodeId ta.value)).1, GA := some ga1 } := by
          simp [readEdgesLoop, Graph.newEdge, hsx, htx, hga, hra]
        rw [hstep]
        exact ih _ (by simp) hmem

/-! ## Failure propagation and invariants of the cluster walker -/

/-- A failed accumulator makes the loop step a no-op (the C++ early return). -/
theorem readClusterNodeStep_false (mA : List (String × String))
    (rec : ClusterState → Nat → XmlTagObject → Bool × ClusterState) (rc : Nat)
    (st : ClusterState) (x : XmlTagObject) :
    readClusterNodeStep mA rec rc (false, st) x = (false, st) := rfl

theorem foldl_readClusterNodeStep_false (mA : List (String × String))
    (rec : ClusterState → Nat → XmlTagObject → Bool × ClusterState) (rc : Nat) :
    ∀ (l : List XmlTagObject) (st : ClusterState),
    l.foldl (readClusterNodeStep mA rec rc) (false, st) = (false, st) := by
  intro l st
  induction l with
  | nil => rfl
  | cons x xs ih =>
    rw [List.foldl_cons, readClusterNodeStep_false]
    exact ih

/-- A state predicate preserved by the loop step is preserved by the loop. -/
theorem foldl_readClusterNodeStep_inv (mA : List (String × String))
    (rec : ClusterState → Nat → XmlTagObject → Bool × ClusterState) (rc : Nat)
    (P : ClusterState → Prop)
    (hpres : ∀ st x, P st → P ((readClusterNodeStep mA rec rc (true, st) x)).2) :
    ∀ (l : List XmlTagObject) (acc : Bool × ClusterState), P acc.2 →
    P ((l.foldl (readClusterNodeStep mA rec rc) acc).2) := by
  intro l
  induction l with
  | nil =>
    intro acc h
    simpa using h
  | cons x xs ih =>
    intro acc h
    rcases acc with ⟨b, st⟩
    cases b
    · rw [List.foldl_cons, readClusterNodeStep_false]
      exact ih _ h
    · rw [List.foldl_cons]
      exact ih _ (hpres st x h)

/-- If some list element makes the loop step fail from every reachable state,
the whole loop fails. -/
theorem foldl_readClusterNodeStep_reach_false (mA : List (String × String))
    (rec : ClusterState → Nat → XmlTagObject → Bool × ClusterState) (rc : Nat)
    (P : ClusterState → Prop)
    (hpres : ∀ st x, P st → P ((readClusterNodeStep mA rec rc (true, st) x)).2)
    (t : XmlTagObject)
    (hbad : ∀ st, P st → (readClusterNodeStep mA rec rc (true, st) t).1 = false) :
    ∀ (l : List XmlTagObject) (acc : Bool × ClusterState), t ∈ l →
    (acc.1 = true → P acc.2) →
    ((l.foldl (readClusterNodeStep mA rec rc) acc).1) = false := by
  intro l
  induction l with
  | nil =>
    intro acc ht _
    simp at ht
  | cons x xs ih =>
    intro acc ht hP
    rcases acc with ⟨b, st⟩
    cases b
    · rw [List.foldl_cons, readClusterNodeStep_false,
        foldl_readClusterNodeStep_false]
    · have hPst : P st := hP rfl
      rcases List.mem_cons.mp ht with rfl | hmem
      · have hb := hbad st hPst
        rcases hstep : readClusterNodeStep mA rec rc (true, st) t with ⟨b1, st1⟩
        rw [hstep] at hb
        simp only at hb
        subst hb
        rw [List.foldl_cons, hstep, foldl_readClusterNodeStep_false]
      · rw [List.foldl_cons]
        exact ih _ hmem (fun _ => hpres st x hPst)

/-- The edge loop keeps the attribute storage present. -/
theorem readEdgesLoop_GA_isSome (mA : List (String × String)) :
    ∀ (l : List XmlTagObject) (st : FlatState), st.GA.isSome = true →
    ((readEdgesLoop mA l st).2.GA).isSome = true := by
  intro l
  induction l with
  | nil =>
    intro st h
    simpa [readEdgesLoop] using h
  | cons x xs ih =>
    intro st h
    obtain ⟨ga, hga⟩ := Option.isSome_iff_exists.mp h
    rcases hsx : findXmlAttributeObjectByName x "source" with _ | sa
    · simpa [readEdgesLoop, hsx] using h
    rcases htx : findXmlAttributeObjectByName x "target" with _ | ta
    · simpa [readEdgesLoop, hsx, htx] using h
    rcases hra : readAttributesEdge mA ga st.G.edges.length x with ⟨b, ga1, w⟩
    cases b
    · simp [readEdgesLoop, Graph.newEdge, hsx, htx, hga, hra]
    · have hstep : readEdgesLoop mA (x :: xs) st = readEdgesLoop mA xs
          { st with G := (st.G.newEdge (lookupNodeId st.m_nodeId sa.value)
              (lookupNodeId st.m_nodeId ta.value)).1, GA := some ga1 } := by
        simp [readEdgesLoop, Graph.newEdge, hsx, htx, hga, hra]
      rw [hstep]
      exact ih _ (by simp)

/-- The loop step keeps the cluster attribute storage present, provided the
recursive descent does. -/
theorem readClusterNodeStep_CA_isSome (mA : List (String × String))
    (rec : ClusterState → Nat → XmlTagObject → Bool × ClusterState) (rc : Nat)
    (hrec : ∀ st c g, st.CA.isSome = true → ((rec st c g).2.CA).isSome = true) :
    ∀ (st : ClusterState) (x : XmlTagObject), st.CA.isSome = true →
    (((readClusterNodeStep mA rec rc) (true, st) x).2.CA).isSome = true := by
  intro st x h
  obtain ⟨ca, hca⟩ := Option.isSome_iff_exists.mp h
  cases hcl : findSonXmlTagObjectByName x "graph" with
  | none =>
    cases hid : findXmlAttributeObjectByName x "id" with
    | none => simpa [readClusterNodeStep, hcl, hid] using h
    | some a =>
      rcases hra : readAttributes mA ca.toGraphAttributes st.G.numNodes x
        with ⟨b, ga1, w⟩
      cases b <;>
        simp [readClusterNodeStep, hcl, hid, hca, Graph.newNode, hra]
  | some g =>
    rcases hr : rec { st with C := { st.C with
        numClusters := st.C.numClusters + 1,
        parentOf := (st.C.numClusters, rc) :: st.C.parentOf } }
        st.C.numClusters g with ⟨b, st1⟩
    have h1 : st1.CA.isSome = true := by
      have := hrec { st with C := { st.C with
          numClusters := st.C.numClusters + 1,
          parentOf := (st.C.numClusters, rc) :: st.C.parentOf } }
          st.C.numClusters g (by simpa using h)
      rw [hr] at this
      exact this
    cases b
    · simpa [readClusterNodeStep, hcl, ClusterGraph.newCluster, hr] using h1
    · obtain ⟨ca1, hca1⟩ := Option.isSome_iff_exists.mp h1
      rcases hrac : readAttributesCluster mA ca1 st.C.numClusters x
        with ⟨b2, ca2, w2⟩
      cases b2 <;>
        simp [readClusterNodeStep, hcl, ClusterGraph.newCluster, hr, hca1, hrac]

/-- The cluster walker keeps the cluster attribute storage present. -/
theorem readClusters_CA_isSome (mA : List (String × String)) :
    ∀ (fuel : Nat) (st : ClusterState) (rc : Nat) (tag : XmlTagObject),
    st.CA.isSome = true → ((readClusters mA fuel st rc tag).2.CA).isSome = true := by
  intro fuel
  induction fuel with
  | zero =>
    intro st rc tag h
    simpa [readClusters] using h
  | succ f ih =>
    intro st rc tag h
    have hstepinv := readClusterNodeStep_CA_isSome mA (readClusters mA f) rc
      (fun st' c g h' => ih st' c g h')
    rcases hfold : (findSonXmlTagObjectsByName tag "node").foldl
        (readClusterNodeStep mA (readClusters mA f) rc) (true, st) with ⟨b, st1⟩
    have h1 : st1.CA.isSome = true := by
      have := foldl_readClusterNodeStep_inv mA (readClusters mA f) rc
        (fun s => s.CA.isSome = true) (fun s x hs => hstepinv s x hs)
        (findSonXmlTagObjectsByName tag "node") (true, st) (by simpa using h)
      rw [hfold] at this
      exact this
    cases b
    · simpa [readClusters, hfold] using h1
    · obtain ⟨ca1, hca1⟩ := Option.isSome_iff_exists.mp h1
      rcases hre : readEdges mA
          { G := st1.G, GA := st1.CA.map (fun ca => ca.toGraphAttributes),
            m_nodeId := st1.m_nodeId } tag with ⟨ok, fst1⟩
      have h3 : fst1.GA.isSome = true := by
        have := readEdgesLoop_GA_isSome mA (findSonXmlTagObjectsByName tag "edge")
          { G := st1.G, GA := st1.CA.map (fun ca => ca.toGraphAttributes),
            m_nodeId := st1.m_nodeId } (by simp [hca1])
        rw [show readEdgesLoop mA (findSonXmlTagObjectsByName tag "edge")
            { G := st1.G, GA := st1.CA.map (fun ca => ca.toGraphAttributes),
              m_nodeId := st1.m_nodeId }
            = (ok, fst1) from hre] at this
        exact this
      obtain ⟨ga1, hga1⟩ := Option.isSome_iff_exists.mp h3
      simp only [hca1, Option.map] at hre
      simp [readClusters, hfold, hre, hca1, hga1]

/-- A reachable leaf node element without an id makes the cluster walker
fail, at any fuel. -/
theorem readClusters_hasBadLeaf_false (mA : List (String × String)) :
    ∀ (tag : XmlTagObject), HasBadLeaf tag →
    ∀ (fuel : Nat) (st : ClusterState) (rc : Nat),
    (readClusters mA fuel st rc tag).1 = false := by
  intro tag h
  induction h with
  | leaf tag t hmem hleaf hid =>
    intro fuel st rc
    cases fuel with
    | zero => simp [readClusters]
    | succ f =>
      have hbad : ∀ st' : ClusterState,
          (readClusterNodeStep mA (readClusters mA f) rc (true, st') t).1 = false := by
        intro st'
        simp [readClusterNodeStep, hleaf, hid]
      have hfold := foldl_readClusterNodeStep_reach_false mA (readClusters mA f) rc
        (fun _ => True) (fun _ _ _ => trivial) t (fun st' _ => hbad st')
        (findSonXmlTagObjectsByName tag "node") (true, st) hmem (fun _ => trivial)
      rcases hf : (findSonXmlTagObjectsByName tag "node").foldl
          (readClusterNodeStep mA (readClusters mA f) rc) (true, st) with ⟨b, st1⟩
      rw [hf] at hfold
      simp only at hfold
      subst hfold
      simp [readClusters, hf]
  | nested tag t g hmem hsub hbadleaf ih =>
    intro fuel st rc
    cases fuel with
    | zero => simp [readClusters]
    | succ f =>
      have hbad : ∀ st' : ClusterState,
          (readClusterNodeStep mA (readClusters mA f) rc (true, st') t).1 = false := by
        intro st'
        have hrec := ih f { st' with C := { st'.C with
            numClusters := st'.C.numClusters + 1,
            parentOf := (st'.C.numClusters, rc) :: st'.C.parentOf } }
            st'.C.numClusters
        rcases hr : readClusters mA f { st' with C := { st'.C with
            numClusters := st'.C.numClusters + 1,
            parentOf := (st'.C.numClusters, rc) :: st'.C.parentOf } }
            st'.C.numClusters g with ⟨b, st1⟩
        rw [hr] at hrec
        simp only at hrec
        subst hrec
        simp [readClusterNodeStep, hsub, ClusterGraph.newCluster, hr]
      have hfold := foldl_readClusterNodeStep_reach_false mA (readClusters mA f) rc
        (fun _ => True) (fun _ _ _ => trivial) t (fun st' _ => hbad st')
        (findSonXmlTagObjectsByName tag "node") (true, st) hmem (fun _ => trivial)
      rcases hf : (findSonXmlTagObjectsByName tag "node").foldl
          (readClusterNodeStep mA (readClusters mA f) rc) (true, st) with ⟨b, st1⟩
      rw [hf] at hfold
      simp only at hfold
      subst hfold
      simp [readClusters, hf]

/-- A node element of a walked frame carrying a keyless data child makes the
cluster walker fail whenever cluster attribute storage is supplied. -/
theorem readClusters_keyless_data_false (mA : List (String × String))
    (nt d : XmlTagObject) (hd : d ∈ findSonXmlTagObjectsByName nt "data")
    (hkey : findXmlAttributeObjectByName d "key" = none) :
    ∀ (fuel : Nat) (st : ClusterState) (rc : Nat) (tag : XmlTagObject),
    st.CA.isSome = true → nt ∈ findSonXmlTagObjectsByName tag "node" →
    (readClusters mA fuel st rc tag).1 = false := by
  intro fuel st rc tag hCA hmem
  cases fuel with
  | zero => simp [readClusters]
  | succ f =>
    have hpres := readClusterNodeStep_CA_isSome mA (readClusters mA f) rc
      (fun st' c g h' => readClusters_CA_isSome mA f st' c g h')
    have hbad : ∀ st' : ClusterState, st'.CA.isSome = true →
        (readClusterNodeStep mA (readClusters mA f) rc (true, st') nt).1 = false := by
      intro st' h'
      obtain ⟨ca, hca⟩ := Option.isSome_iff_exists.mp h'
      cases hcl : findSonXmlTagObjectByName nt "graph" with
      | none =>
        cases hid : findXmlAttributeObjectByName nt "id" with
        | none => simp [readClusterNodeStep, hcl, hid]
        | some a =>
          have hloop := readAttributesLoop_missing_key_false mA st'.G.numNodes
            (findSonXmlTagObjectsByName nt "data") ca.toGraphAttributes d hd hkey
          rcases hra : readAttributes mA ca.toGraphAttributes st'.G.numNodes nt
            with ⟨b, ga1, w⟩
          have hb : b = false := by
            have hx : (readAttributes mA ca.toGraphAttributes
                st'.G.numNodes nt).1 = false := hloop
            rw [hra] at hx
            exact hx
          subst hb
          simp [readClusterNodeStep, hcl, hid, hca, Graph.newNode, hra]
      | some g =>
        rcases hr : readClusters mA f { st' with C := { st'.C with
            numClusters := st'.C.numClusters + 1,
            parentOf := (st'.C.numClusters, rc) :: st'.C.parentOf } }
            st'.C.numClusters g with ⟨b, st1⟩
        cases b
        · simp [readClusterNodeStep, hcl, ClusterGraph.newCluster, hr]
        · have h1 : st1.CA.isSome = true := by
            have hx := readClusters_CA_isSome mA f { st' with C := { st'.C with
                numClusters := st'.C.numClusters + 1,
                parentOf := (st'.C.numClusters, rc) :: st'.C.parentOf } }
                st'.C.numClusters g (by simpa using h')
            rw [hr] at hx
            exact hx
          obtain ⟨ca1, hca1⟩ := Option.isSome_iff_exists.mp h1
          have hloop := readAttributesClusterLoop_missing_key_false mA
            st'.C.numClusters (findSonXmlTagObjectsByName nt "data") ca1 d hd hkey
          rcases hrac : readAttributesCluster mA ca1 st'.C.numClusters nt
            with ⟨b2, ca2, w2⟩
          have hb2 : b2 = false := by
            have hx : (readAttributesCluster mA ca1
                st'.C.numClusters nt).1 = false := hloop
            rw [hrac] at hx
            exact hx
          subst hb2
          simp [readClusterNodeStep, hcl, ClusterGraph.newCluster, hr, hca1, hrac]
    have hfold := foldl_readClusterNodeStep_reach_false mA (readClusters mA f) rc
      (fun s => s.CA.isSome = true) (fun s x hs => hpres s x hs) nt hbad
      (findSonXmlTagObjectsByName tag "node") (true, st) hmem (fun _ => hCA)
    rcases hf : (findSonXmlTagObjectsByName tag "node").foldl
        (readClusterNodeStep mA (readClusters mA f) rc) (true, st) with ⟨b, st1⟩
    rw [hf] at hfold
    simp only at hfold
    subst hfold
    simp [readClusters, hf]

/-! ## C7 counterexample: an id-less cluster node does not abort -/

/-- C7 is false as stated: in a clustered read, a node element lacking an id
attribute but containing a nested `graph` child does not cause failure — it
denotes a cluster.  Concretely, `exClusterGraphTag`'s first node element has
no id, yet the clustered read succeeds. -/
theorem idless_cluster_node_read_succeeds :
    (∃ t ∈ findSonXmlTagObjectsByName exClusterGraphTag "node",
        findXmlAttributeObjectByName t "id" = none) ∧
    exClusterParser.m_error = false ∧
    (exClusterParser.readC (Graph.mk 0 []) (ClusterGraph.mk 1 0 [] [])).1 = true := by
  refine ⟨⟨tagOf "node" [] [tagOf "graph" [] [exNode "n0"] "" 4] "" 3, ?_, ?_⟩, ?_, ?_⟩
  · decide
  · decide
  · decide
  · decide

/-! ## C7 (amended): missing required attributes abort the read -/

/-- C7 as amended: a node element lacking an id aborts a flat read when it is
a direct child of the graph element, and aborts a clustered read when it is a
*leaf* node element (one with no nested `graph` child — a node element with a
nested `graph` child denotes a cluster and needs no id) at any nesting depth
reached by the walk; an edge element lacking a source or a target attribute
likewise aborts the read. -/
theorem missing_required_attr_aborts (p : GraphMLParser) (gTag : XmlTagObject)
    (G : Graph) (GA : GraphAttributes) (C : ClusterGraph)
    (CA : ClusterGraphAttributes)
    (herr : p.m_error = false) (hg : p.m_graphTag = some gTag) :
    (∀ t ∈ findSonXmlTagObjectsByName gTag "node",
      findXmlAttributeObjectByName t "id" = none →
      (p.read G).1 = false ∧ (p.readGA G GA).1 = false) ∧
    (∀ t ∈ findSonXmlTagObjectsByName gTag "edge",
      (findXmlAttributeObjectByName t "source" = none ∨
       findXmlAttributeObjectByName t "target" = none) →
      (p.read G).1 = false ∧ (p.readGA G GA).1 = false) ∧
    (HasBadLeaf gTag →
      (p.readC G C).1 = false ∧ (p.readCA G C CA).1 = false) := by
  refine ⟨?_, ?_, ?_⟩
  · intro t ht hid
    constructor
    · rcases hrn : readNodes p.m_attrName
          { G := G.clear, GA := none, m_nodeId := [] } gTag with ⟨b1, st1⟩
      have hb1 : b1 = false := by
        have hx := readNodesLoop_missing_id_false p.m_attrName
          (findSonXmlTagObjectsByName gTag "node")
          { G := G.clear, GA := none, m_nodeId := [] } t ht hid
        rw [show readNodesLoop p.m_attrName (findSonXmlTagObjectsByName gTag "node")
            { G := G.clear, GA := none, m_nodeId := [] } = (b1, st1) from hrn] at hx
        exact hx
      subst hb1
      simp [GraphMLParser.read, herr, hg, hrn]
    · rcases hrn : readNodes p.m_attrName
          { G := G.clear, GA := some GA, m_nodeId := [] } gTag with ⟨b1, st1⟩
      have hb1 : b1 = false := by
        have hx := readNodesLoop_missing_id_false p.m_attrName
          (findSonXmlTagObjectsByName gTag "node")
          { G := G.clear, GA := some GA, m_nodeId := [] } t ht hid
        rw [show readNodesLoop p.m_attrName (findSonXmlTagObjectsByName gTag "node")
            { G := G.clear, GA := some GA, m_nodeId := [] } = (b1, st1) from hrn] at hx
        exact hx
      subst hb1
      simp [GraphMLParser.readGA, herr, hg, hrn]
  · intro t ht hend
    constructor
    · rcases hrn : readNodes p.m_attrName
          { G := G.clear, GA := none, m_nodeId := [] } gTag with ⟨b1, st1⟩
      cases b1
      · simp [GraphMLParser.read, herr, hg, hrn]
      · rcases hre : readEdges p.m_attrName st1 gTag with ⟨b2, st2⟩
        have hb2 : b2 = false := by
          have hx := readEdgesLoop_missing_endpoint_false p.m_attrName
            (findSonXmlTagObjectsByName gTag "edge") st1 t ht hend
          rw [show readEdgesLoop p.m_attrName (findSonXmlTagObjectsByName gTag "edge")
              st1 = (b2, st2) from hre] at hx
          exact hx
        subst hb2
        simp [GraphMLParser.read, herr, hg, hrn, hre]
    · rcases hrn : readNodes p.m_attrName
          { G := G.clear, GA := some GA, m_nodeId := [] } gTag with ⟨b1, st1⟩
      cases b1
      · simp [GraphMLParser.readGA, herr, hg, hrn]
      · rcases hre : readEdges p.m_attrName st1 gTag with ⟨b2, st2⟩
        have hb2 : b2 = false := by
          have hx := readEdgesLoop_missing_endpoint_false p.m_attrName
            (findSonXmlTagObjectsByName gTag "edge") st1 t ht hend
          rw [show readEdgesLoop p.m_attrName (findSonXmlTagObjectsByName gTag "edge")
              st1 = (b2, st2) from hre] at hx
          exact hx
        subst hb2
        simp [GraphMLParser.readGA, herr, hg, hrn, hre]
  · intro hbl
    constructor
    · rcases hrc : readClusters p.m_attrName gTag.fuelOf
          { G := G.clear, C := C, CA := none, m_nodeId := [] }
          C.rootCluster gTag with ⟨ok, st1⟩
      have hok : ok = false := by
        have hx := readClusters_hasBadLeaf_false p.m_attrName gTag hbl gTag.fuelOf
          { G := G.clear, C := C, CA := none, m_nodeId := [] } C.rootCluster
        rw [hrc] at hx
        exact hx
      subst hok
      simp [GraphMLParser.readC, herr, hg, hrc]
    · rcases hrc : readClusters p.m_attrName gTag.fuelOf
          { G := G.clear, C := C, CA := some CA, m_nodeId := [] }
          C.rootCluster gTag with ⟨ok, st1⟩
      have hok : ok = false := by
        have hx := readClusters_hasBadLeaf_false p.m_attrName gTag hbl gTag.fuelOf
          { G := G.clear, C := C, CA := some CA, m_nodeId := [] } C.rootCluster
        rw [hrc] at hx
        exact hx
      subst hok
      simp [GraphMLParser.readCA, herr, hg, hrc]

/-- Witness for the amended C7: a document whose only node element has no id;
both the flat read and the clustered read fail. -/
theorem missing_required_attr_aborts_witness :
    ((GraphMLParser.ofParseTree (some (tagOf "graphml" []
        [tagOf "graph" [] [tagOf "node" [] [] "" 1] "" 0] "" 0))).read
      (Graph.mk 0 [])).1 = false ∧
    ((GraphMLParser.ofParseTree (some (tagOf "graphml" []
        [tagOf "graph" [] [tagOf "node" [] [] "" 1] "" 0] "" 0))).readC
      (Graph.mk 0 []) (ClusterGraph.mk 1 0 [] [])).1 = false :=
  ⟨((missing_required_attr_aborts
      (GraphMLParser.ofParseTree (some (tagOf "graphml" []
        [tagOf "graph" [] [tagOf "node" [] [] "" 1] "" 0] "" 0)))
      (tagOf "graph" [] [tagOf "node" [] [] "" 1] "" 0)
      (Graph.mk 0 []) exGA (ClusterGraph.mk 1 0 [] []) exCA
      (by decide) rfl).1 (tagOf "node" [] [] "" 1) (by decide) (by decide)).1,
   ((missing_required_attr_aborts
      (GraphMLParser.ofParseTree (some (tagOf "graphml" []
        [tagOf "graph" [] [tagOf "node" [] [] "" 1] "" 0] "" 0)))
      (tagOf "graph" [] [tagOf "node" [] [] "" 1] "" 0)
      (Graph.mk 0 []) exGA (ClusterGraph.mk 1 0 [] []) exCA
      (by decide) rfl).2.2 (HasBadLeaf.leaf _ (tagOf "node" [] [] "" 1)
        (by decide) (by decide) (by decide))).1⟩

/-! ## C8: a keyless data element aborts the entire read -/

/-- C8: a data element lacking a key-reference attribute, attached to a node
element, an edge element, or a (cluster-denoting or leaf) node element of a
clustered read, makes the attribute dispatcher signal an error that aborts
the entire read — the read variant returns failure, not merely skipping the
one data element. -/
theorem keyless_data_aborts_read (p : GraphMLParser) (gTag : XmlTagObject)
    (G : Graph) (GA : GraphAttributes) (C : ClusterGraph)
    (CA : ClusterGraphAttributes)
    (herr : p.m_error = false) (hg : p.m_graphTag = some gTag) :
    (∀ nt d, nt ∈ findSonXmlTagObjectsByName gTag "node" →
      d ∈ findSonXmlTagObjectsByName nt "data" →
      findXmlAttributeObjectByName d "key" = none →
      (p.readGA G GA).1 = false) ∧
    (∀ et d, et ∈ findSonXmlTagObjectsByName gTag "edge" →
      d ∈ findSonXmlTagObjectsByName et "data" →
      findXmlAttributeObjectByName d "key" = none →
      (p.readGA G GA).1 = false) ∧
    (∀ nt d, nt ∈ findSonXmlTagObjectsByName gTag "node" →
      d ∈ findSonXmlTagObjectsByName nt "data" →
      findXmlAttributeObjectByName d "key" = none →
      (p.readCA G C CA).1 = false) := by
  refine ⟨?_, ?_, ?_⟩
  · intro nt d hnt hd hkey
    rcases hrn : readNodes p.m_attrName
        { G := G.clear, GA := some GA, m_nodeId := [] } gTag with ⟨b1, st1⟩
    have hb1 : b1 = false := by
      have hx := readNodesLoop_keyless_data_false p.m_attrName nt d hd hkey
        (findSonXmlTagObjectsByName gTag "node")
        { G := G.clear, GA := some GA, m_nodeId := [] } (by simp) hnt
      rw [show readNodesLoop p.m_attrName (findSonXmlTagObjectsByName gTag "node")
          { G := G.clear, GA := some GA, m_nodeId := [] } = (b1, st1) from hrn] at hx
      exact hx
    subst hb1
    simp [GraphMLParser.readGA, herr, hg, hrn]
  · intro et d het hd hkey
    rcases hrn : readNodes p.m_attrName
        { G := G.clear, GA := some GA, m_nodeId := [] } gTag with ⟨b1, st1⟩
    cases b1
    · simp [GraphMLParser.readGA, herr, hg, hrn]
    · have hGAsome : st1.GA.isSome = true := by
        have hx := readNodesLoop_GA_isSome p.m_attrName
          (findSonXmlTagObjectsByName gTag "node")
          { G := G.clear, GA := some GA, m_nodeId := [] } (by simp)
        rw [show readNodesLoop p.m_attrName (findSonXmlTagObjectsByName gTag "node")
            { G := G.clear, GA := some GA, m_nodeId := [] } = (true, st1) from hrn] at hx
        exact hx
      rcases hre : readEdges p.m_attrName st1 gTag with ⟨b2, st2⟩
      have hb2 : b2 = false := by
        have hx := readEdgesLoop_keyless_data_false p.m_attrName et d hd hkey
          (findSonXmlTagObjectsByName gTag "edge") st1 hGAsome het
        rw [show readEdgesLoop p.m_attrName (findSonXmlTagObjectsByName gTag "edge")
            st1 = (b2, st2) from hre] at hx
        exact hx
      subst hb2
      simp [GraphMLParser.readGA, herr, hg, hrn, hre]
  · intro nt d hnt hd hkey
    rcases hrc : readClusters p.m_attrName gTag.fuelOf
        { G := G.clear, C := C, CA := some CA, m_nodeId := [] }
        C.rootCluster gTag with ⟨ok, st1⟩
    have hok : ok = false := by
      have hx := readClusters_keyless_data_false p.m_attrName nt d hd hkey
        gTag.fuelOf { G := G.clear, C := C, CA := some CA, m_nodeId := [] }
        C.rootCluster gTag (by simp) hnt
      rw [hrc] at hx
      exact hx
    subst hok
    simp [GraphMLParser.readCA, herr, hg, hrc]

/-! ## C9: every nested grouping yields one attached cluster -/

theorem clusterTreeOutcome_refl (rc : Nat) (C : ClusterGraph) :
    clusterTreeOutcome rc C C 0 := by
  refine ⟨by omega, rfl, fun e he => he, ?_⟩
  intro k h1 h2
  omega

theorem clusterTreeOutcome_trans (rc rc' : Nat) (C0 C1 C2 : ClusterGraph)
    (n1 n2 : Nat) (h1 : clusterTreeOutcome rc C0 C1 n1)
    (h2 : clusterTreeOutcome rc' C1 C2 n2)
    (hrc' : rc' = rc ∨ C0.numClusters ≤ rc') :
    clusterTreeOutcome rc C0 C2 (n1 + n2) := by
  obtain ⟨ha1, hb1, hc1, hd1⟩ := h1
  obtain ⟨ha2, hb2, hc2, hd2⟩ := h2
  refine ⟨by omega, by rw [hb2, hb1], fun e he => hc2 e (hc1 e he), ?_⟩
  intro k hk1 hk2
  by_cases hk : k < C1.numClusters
  · obtain ⟨pk, hm, hlt, hor⟩ := hd1 k hk1 hk
    exact ⟨pk, hc2 _ hm, hlt, hor⟩
  · obtain ⟨pk, hm, hlt, hor⟩ := hd2 k (by omega) (by omega)
    refine ⟨pk, hm, hlt, ?_⟩
    rcases hor with h | h
    · rcases hrc' with h' | h'
      · exact Or.inl (h.trans h')
      · exact Or.inr (by omega)
    · exact Or.inr (by omega)

theorem clusterTreeOutcome_newCluster (rc : Nat) (C : ClusterGraph)
    (hrc : rc < C.numClusters) :
    clusterTreeOutcome rc C (C.newCluster rc).1 1 := by
  refine ⟨rfl, rfl, ?_, ?_⟩
  · intro e he
    exact List.mem_cons_of_mem _ he
  · intro k hk1 hk2
    have hk : k = C.numClusters := by
      simp [ClusterGraph.newCluster] at hk2
      omega
    subst hk
    exact ⟨rc, List.mem_cons_self _ _, hrc, Or.inl rfl⟩

theorem clusterTreeOutcome_reassign (rc : Nat) (C : ClusterGraph) (v c : Nat) :
    clusterTreeOutcome rc C (C.reassignNode v c) 0 := by
  refine ⟨by simp [ClusterGraph.reassignNode], rfl, fun e he => he, ?_⟩
  intro k h1 h2
  simp [ClusterGraph.reassignNode] at h2
  omega

/-- One successful loop-step of the cluster walker: a leaf node element leaves
the cluster tree unchanged (up to node reassignment), a cluster-denoting node
element adds exactly one attached cluster plus whatever its nested graph
contributes. -/
theorem readClusterNodeStep_tree_spec (mA : List (String × String)) (rc : Nat)
    (f : Nat)
    (hrec : ∀ (st : ClusterState) (c : Nat) (g : XmlTagObject),
      c < st.C.numClusters → ∀ b' st', readClusters mA f st c g = (b', st') →
      b' = true → clusterTreeOutcome c st.C st'.C (countClusterNodes f g)) :
    ∀ (st : ClusterState) (t : XmlTagObject), rc < st.C.numClusters →
    ∀ b1 st1, readClusterNodeStep mA (readClusters mA f) rc (true, st) t = (b1, st1) →
    b1 = true →
    clusterTreeOutcome rc st.C st1.C
      (match findSonXmlTagObjectByName t "graph" with
       | some g => 1 + countClusterNodes f g
       | none => 0) := by
  intro st t hrc b1 st1 hstep hb1
  subst hb1
  cases hcl : findSonXmlTagObjectByName t "graph" with
  | none =>
    show clusterTreeOutcome rc st.C st1.C 0
    cases hid : findXmlAttributeObjectByName t "id" with
    | none =>
      simp [readClusterNodeStep, hcl, hid] at hstep
    | some a =>
      cases hca : st.CA with
      | none =>
        simp [readClusterNodeStep, hcl, hid, hca, Graph.newNode] at hstep
        rw [← hstep]
        exact clusterTreeOutcome_reassign rc st.C st.G.numNodes rc
      | some ca =>
        rcases hra : readAttributes mA ca.toGraphAttributes st.G.numNodes t
          with ⟨b, ga1, w⟩
        cases b
        · simp [readClusterNodeStep, hcl, hid, hca, Graph.newNode, hra] at hstep
        · simp [readClusterNodeStep, hcl, hid, hca, Graph.newNode, hra] at hstep
          rw [← hstep]
          exact clusterTreeOutcome_reassign rc st.C st.G.numNodes rc
  | some g =>
    show clusterTreeOutcome rc st.C st1.C (1 + countClusterNodes f g)
    rcases hr : readClusters mA f { st with C := { st.C with
        numClusters := st.C.numClusters + 1,
        parentOf := (st.C.numClusters, rc) :: st.C.parentOf } }
        st.C.numClusters g with ⟨b2, st2⟩
    cases b2
    · simp [readClusterNodeStep, hcl, ClusterGraph.newCluster, hr] at hstep
    · have hout2 := hrec { st with C := { st.C with
          numClusters := st.C.numClusters + 1,
          parentOf := (st.C.numClusters, rc) :: st.C.parentOf } }
          st.C.numClusters g (by simp) true st2 hr rfl
      have hC : st1.C = st2.C := by
        cases hca2 : st2.CA with
        | none =>
          simp [readClusterNodeStep, hcl, ClusterGraph.newCluster, hr, hca2] at hstep
          rw [← hstep]
        | some ca2 =>
          rcases hrac : readAttributesCluster mA ca2 st.C.numClusters t
            with ⟨b3, ca3, w3⟩
          cases b3
          · simp [readClusterNodeStep, hcl, ClusterGraph.newCluster, hr,
              hca2, hrac] at hstep
          · simp [readClusterNodeStep, hcl, ClusterGraph.newCluster, hr,
              hca2, hrac] at hstep
            rw [← hstep]
      rw [hC]
      have hone := clusterTreeOutcome_newCluster rc st.C hrc
      exact clusterTreeOutcome_trans rc st.C.numClusters st.C
        (st.C.newCluster rc).1 st2.C 1 (countClusterNodes f g) hone hout2
        (Or.inr le_rfl)

/-- A successful pass of the cluster walker's node loop accumulates the
per-element cluster-tree outcomes. -/
theorem readClustersLoop_tree_spec (mA : List (String × String)) (rc : Nat)
    (f : Nat)
    (hrec : ∀ (st : ClusterState) (c : Nat) (g : XmlTagObject),
      c < st.C.numClusters → ∀ b' st', readClusters mA f st c g = (b', st') →
      b' = true → clusterTreeOutcome c st.C st'.C (countClusterNodes f g)) :
    ∀ (l : List XmlTagObject) (st : ClusterState), rc < st.C.numClusters →
    ∀ b' st', (l.foldl (readClusterNodeStep mA (readClusters mA f) rc) (true, st))
        = (b', st') → b' = true →
    clusterTreeOutcome rc st.C st'.C (countClusterAux (countClusterNodes f) l) := by
  intro l
  induction l with
  | nil =>
    intro st hrc b' st' hfold hb'
    subst hb'
    simp only [List.foldl_nil] at hfold
    injection hfold with _ hst
    rw [← hst]
    exact clusterTreeOutcome_refl rc st.C
  | cons t ts ih =>
    intro st hrc b' st' hfold hb'
    rcases hstep : readClusterNodeStep mA (readClusters mA f) rc (true, st) t
      with ⟨b1, st1⟩
    rw [List.foldl_cons, hstep] at hfold
    cases b1
    · subst hb'
      rw [foldl_readClusterNodeStep_false] at hfold
      simp at hfold
    · have hout1 := readClusterNodeStep_tree_spec mA rc f hrec st t hrc
        true st1 hstep rfl
      have hrc1 : rc < st1.C.numClusters := by
        have h1 := hout1.1
        rcases hsplit : findSonXmlTagObjectByName t "graph" with _ | g <;>
          rw [hsplit] at h1 <;> omega
      have hout2 := ih st1 hrc1 b' st' hfold hb'
      have hcomp := clusterTreeOutcome_trans rc rc st.C st1.C st'.C _ _ hout1 hout2
        (Or.inl rfl)
      have hcount : (match findSonXmlTagObjectByName t "graph" with
          | some g => 1 + countClusterNodes f g
          | none => 0) + countClusterAux (countClusterNodes f) ts
          = countClusterAux (countClusterNodes f) (t :: ts) := by
        simp [countClusterAux]
      rw [hcount] at hcomp
      exact hcomp

/-- C9: in a clustered read, every node element containing a nested graph
child yields exactly one new cluster, created as a child of the cluster of
its enclosing frame (never detached from the tree), and the nested content is
walked with the new cluster as parent: a successful walker call starting at
frame cluster `rc` creates exactly `countClusterNodes` clusters, keeps the
root cluster and all previous parent links, and every created cluster has a
recorded parent strictly below it — the frame cluster `rc` or a cluster
created during the same walk. -/
theorem cluster_nodes_create_attached_clusters (mA : List (String × String)) :
    ∀ (fuel : Nat) (st : ClusterState) (rc : Nat) (tag : XmlTagObject),
    rc < st.C.numClusters →
    ∀ b' st', readClusters mA fuel st rc tag = (b', st') → b' = true →
    clusterTreeOutcome rc st.C st'.C (countClusterNodes fuel tag) := by
  intro fuel
  induction fuel with
  | zero =>
    intro st rc tag hrc b' st' hr hb'
    subst hb'
    simp [readClusters] at hr
  | succ f ih =>
    intro st rc tag hrc b' st' hr hb'
    subst hb'
    rcases hf : (findSonXmlTagObjectsByName tag "node").foldl
        (readClusterNodeStep mA (readClusters mA f) rc) (true, st) with ⟨b, st1⟩
    cases b
    · simp only [readClusters] at hr
      rw [hf] at hr
      simp at hr
    · have hloop := readClustersLoop_tree_spec mA rc f
        (fun st' c g hc b'' st'' h1 h2 => ih st' c g hc b'' st'' h1 h2)
        (findSonXmlTagObjectsByName tag "node") st hrc true st1 hf rfl
      simp only [readClusters] at hr
      rw [hf] at hr
      have hC : st1.C = st'.C :=
        congrArg (fun p : Bool × ClusterState => p.2.C) hr
      rw [← hC]
      exact hloop

/-- Witness for C9: the nested example document — one cluster-denoting node
element, so exactly one new cluster, attached to the root cluster 0. -/
theorem cluster_nodes_create_attached_clusters_witness :
    clusterTreeOutcome 0 (ClusterGraph.mk 1 0 [] [])
      (readClusters [] exClusterGraphTag.fuelOf
        { G := Graph.mk 0 [], C := ClusterGraph.mk 1 0 [] [], CA := none,
          m_nodeId := [] } 0 exClusterGraphTag).2.C
      (countClusterNodes exClusterGraphTag.fuelOf exClusterGraphTag) := by
  have h := cluster_nodes_create_attached_clusters [] exClusterGraphTag.fuelOf
    { G := Graph.mk 0 [], C := ClusterGraph.mk 1 0 [] [], CA := none,
      m_nodeId := [] } 0 exClusterGraphTag (by decide)
    (readClusters [] exClusterGraphTag.fuelOf
      { G := Graph.mk 0 [], C := ClusterGraph.mk 1 0 [] [], CA := none,
        m_nodeId := [] } 0 exClusterGraphTag).1
    (readClusters [] exClusterGraphTag.fuelOf
      { G := Graph.mk 0 [], C := ClusterGraph.mk 1 0 [] [], CA := none,
        m_nodeId := [] } 0 exClusterGraphTag).2 rfl (by decide)
  exact h

/-- Witness for C8: a node element with id `n0` carrying a keyless data
child; the attributed flat read and the attributed clustered read both fail. -/
theorem keyless_data_aborts_read_witness :
    ((GraphMLParser.ofParseTree (some (tagOf "graphml" []
        [tagOf "graph" [] [tagOf "node" [⟨"id", "n0"⟩] [exDataNoKey] "" 1] "" 0]
        "" 0))).readGA (Graph.mk 0 []) exGA).1 = false ∧
    ((GraphMLParser.ofParseTree (some (tagOf "graphml" []
        [tagOf "graph" [] [tagOf "node" [⟨"id", "n0"⟩] [exDataNoKey] "" 1] "" 0]
        "" 0))).readCA (Graph.mk 0 []) (ClusterGraph.mk 1 0 [] []) exCA).1 = false :=
  ⟨(keyless_data_aborts_read
      (GraphMLParser.ofParseTree (some (tagOf "graphml" []
        [tagOf "graph" [] [tagOf "node" [⟨"id", "n0"⟩] [exDataNoKey] "" 1] "" 0]
        "" 0)))
      (tagOf "graph" [] [tagOf "node" [⟨"id", "n0"⟩] [exDataNoKey] "" 1] "" 0)
      (Graph.mk 0 []) exGA (ClusterGraph.mk 1 0 [] []) exCA
      (by decide) rfl).1 (tagOf "node" [⟨"id", "n0"⟩] [exDataNoKey] "" 1)
      exDataNoKey (by decide) (by decide) (by decide),
   (keyless_data_aborts_read
      (GraphMLParser.ofParseTree (some (tagOf "graphml" []
        [tagOf "graph" [] [tagOf "node" [⟨"id", "n0"⟩] [exDataNoKey] "" 1] "" 0]
        "" 0)))
      (tagOf "graph" [] [tagOf "node" [⟨"id", "n0"⟩] [exDataNoKey] "" 1] "" 0)
      (Graph.mk 0 []) exGA (ClusterGraph.mk 1 0 [] []) exCA
      (by decide) rfl).2.2 (tagOf "node" [⟨"id", "n0"⟩] [exDataNoKey] "" 1)
      exDataNoKey (by decide) (by decide) (by decide)⟩

end OgdfGraphML
